import Mathlib

/-!
# stardog-graviton: deployment lifecycle, status parsing and health wait

A shallow embedding of the Go sources `aws/aws_volumes.go`, `aws/aws_instance.go`,
`aws/aws_deployment.go` and `sdutils/deployment.go`.

* Go values of type `error` are `Option String` (`none` is `nil`).
* A Go call that may panic returns a `GoResult`.
* The deployment directory is a record of the files the code looks at; every
  operation threads a `World` (files plus the log of engine invocations).
* Everything outside the process (PATH lookup, the terraform subprocess, HTTP,
  the environment) is a field of `Env`.
* Console and log output is not modelled.
-/

namespace Graviton

/-! ## Go runtime -/

/-- Go `error`: `none` is `nil`. -/
abbrev GoError := Option String

/-- Outcome of a Go call: it returns a value or it panics. -/
inductive GoResult (α : Type) where
  | ret (a : α)
  | panic (msg : String)
  deriving Repr, DecidableEq

/-- Formatting verb `%d` of `fmt.Sprintf` on an `int`. -/
def sprintfD (n : Int) : String :=
  match n with
  | Int.ofNat m => Nat.repr m
  | Int.negSucc m => "-" ++ Nat.repr (m + 1)

/-- Function `path.Join` on already clean, non-empty elements. -/
def pathJoin (elems : List String) : String :=
  "/".intercalate elems

/-- Struct `exec.Cmd`, the fields the sources set. -/
structure Cmd where
  Path : String
  Args : List String
  Dir : String
  deriving Repr, DecidableEq

/-! ## Files and the outside world -/

/-- A flat JSON object whose values are strings: a variables file. -/
abbrev JsonObj := List (String × String)

/-- The files of one deployment directory that the sources read, write or remove. -/
structure FS where
  /-- the tree `etc/terraform` has been placed under the deployment directory -/
  staged : Bool
  /-- file `etc/terraform/volumes/builder.tf` -/
  builderTf : Bool
  /-- file `etc/terraform/volumes/config.json` -/
  volumesConfig : Option JsonObj
  /-- file `etc/terraform/instance/instance.json` -/
  instanceJson : Option JsonObj
  deriving Repr, DecidableEq

/-- Names of the files in `FS`. The sources address them by path, under the
deployment directory `d`: `d/etc/terraform/volumes/builder.tf`,
`d/etc/terraform/volumes/config.json` and `d/etc/terraform/instance/instance.json`. -/
inductive TrackedFile where
  | builderTf
  | volumesConfig
  | instanceJson
  deriving Repr, DecidableEq

/-- Files plus the invocations made through `sdutils.RunCommand` so far, oldest first. -/
structure World where
  fs : FS
  calls : List Cmd
  deriving Repr, DecidableEq

/-- A JSON value as `encoding/json` decodes it into an `interface{}`. -/
inductive JVal where
  | null
  | bool (b : Bool)
  | num (literal : String)
  | str (s : String)
  | arr (xs : List JVal)
  | obj (kvs : List (String × JVal))
  deriving Repr

/-- Struct `OutputEntry`. -/
structure OutputEntry where
  Sensitive : Bool
  /-- field `Type` of the source -/
  Typ : String
  Value : JVal
  deriving Repr

/-- A decoded `map[string]OutputEntry`. -/
abbrev OutputDoc := List (String × OutputEntry)

/-- Everything outside the process. -/
structure Env where
  /-- result of `exec.LookPath` -/
  lookPath : String → Option String
  /-- whether `sdutils.RunCommand` succeeds, given the earlier invocations -/
  run : List Cmd → Cmd → Bool
  /-- result of `cmd.Output()` -/
  cmdOutput : Cmd → Except String String
  /-- result of `json.Unmarshal` into a `map[string]OutputEntry` -/
  unmarshalOutputs : String → Except String OutputDoc
  /-- result of `os.Getenv` -/
  getenv : String → String
  /-- result of `http.Get`: the status code, or a transport error -/
  httpGet : String → Except String Nat

/-- Read one tracked file: `none` when it does not exist. -/
def FS.read (fs : FS) : TrackedFile → Option JsonObj
  | .builderTf => if fs.builderTf then some [] else none
  | .volumesConfig => fs.volumesConfig
  | .instanceJson => fs.instanceJson

/-- Modelled from the spec: `sdutils.PathExists` is not among the sources; it
reports whether the file is present. -/
def PathExists (w : World) (f : TrackedFile) : Bool :=
  (w.fs.read f).isSome

/-- Modelled from the spec: `sdutils.WriteJSON` is not among the sources; it
serializes the object to the file, replacing what was there, and fails when the
directory it writes to does not exist. -/
def WriteJSON (o : JsonObj) (f : TrackedFile) (w : World) : GoError × World :=
  if w.fs.staged then
    match f with
    | .builderTf => (none, { w with fs := { w.fs with builderTf := true } })
    | .volumesConfig => (none, { w with fs := { w.fs with volumesConfig := some o } })
    | .instanceJson => (none, { w with fs := { w.fs with instanceJson := some o } })
  else
    (some "open: no such file or directory", w)

/-- Modelled from the spec: `sdutils.LoadJSON` is not among the sources; it
reads the file back and fails when the file is absent. -/
def LoadJSON (f : TrackedFile) (w : World) : Except String JsonObj :=
  match w.fs.read f with
  | some o => .ok o
  | none => .error "open: no such file or directory"

/-- Function `os.Remove` on a tracked file. -/
def osRemove (f : TrackedFile) (w : World) : GoError × World :=
  match w.fs.read f with
  | none => (some "remove: no such file or directory", w)
  | some _ =>
    match f with
    | .builderTf => (none, { w with fs := { w.fs with builderTf := false } })
    | .volumesConfig => (none, { w with fs := { w.fs with volumesConfig := none } })
    | .instanceJson => (none, { w with fs := { w.fs with instanceJson := none } })

/-- Modelled from the spec: `sdutils.RunCommand` is not among the sources; it
runs the subprocess to completion and returns a non-nil error iff the
subprocess fails. The invocation is appended to the log; the subprocess leaves
the tracked files alone. -/
def RunCommand (env : Env) (cmd : Cmd) (w : World) : GoError × World :=
  let w1 : World := { w with calls := w.calls ++ [cmd] }
  if env.run w.calls cmd then (none, w1) else (some "exit status 1", w1)

/-- A string field tagged `omitempty`. -/
def omitempty (k v : String) : JsonObj :=
  if v = "" then [] else [(k, v)]

/-- Decoding of one string field into a zero-valued struct. -/
def jsonField (o : JsonObj) (k : String) : String :=
  (o.lookup k).getD ""

/-! ## aws/aws_deployment.go, aws/aws_volumes.go, aws/aws_instance.go -/

/-- Struct `awsDeploymentDescription` (without the application context). -/
structure awsDeploymentDescription where
  Region : String
  AmiID : String
  AwsKeyName : String
  ZkInstanceType : String
  SdInstanceType : String
  PrivateKeyPath : String
  CustomProps : String
  HTTPMask : String
  Version : String
  Name : String
  deployDir : String
  deriving Repr, DecidableEq

/-- Struct `AwsEbsVolumes` (without the application context). -/
structure AwsEbsVolumes where
  DeploymentName : String := ""
  Region : String := ""
  SizeOfEachVolume : String := ""
  ClusterSize : String := ""
  AwsKeyName : String := ""
  KeyPath : String := ""
  AmiID : String := ""
  InstanceType : String := ""
  LicensePath : String := ""
  VolumeDir : String := ""
  deriving Repr, DecidableEq

/-- Struct `AwsEc2Instance` (without the application context). -/
structure AwsEc2Instance where
  DeploymentName : String := ""
  Region : String := ""
  KeyName : String := ""
  Version : String := ""
  ZkInstanceType : String := ""
  SdInstanceType : String := ""
  ZkSize : String := ""
  SdSize : String := ""
  AmiID : String := ""
  PrivateKey : String := ""
  HTTPMask : String := ""
  DeployDir : String := ""
  BastionContact : String := ""
  StardogContact : String := ""
  StardogInternalContact : String := ""
  ZkNodesContact : List String := []
  deriving Repr, DecidableEq

/-- JSON encoding of `AwsEbsVolumes` by its field tags. -/
def AwsEbsVolumes.marshal (v : AwsEbsVolumes) : JsonObj :=
  omitempty "deployment_name" v.DeploymentName ++
  omitempty "aws_region" v.Region ++
  omitempty "storage_size" v.SizeOfEachVolume ++
  omitempty "cluster_size" v.ClusterSize ++
  omitempty "aws_key_name" v.AwsKeyName ++
  omitempty "key_path" v.KeyPath ++
  omitempty "ami" v.AmiID ++
  omitempty "instance_type" v.InstanceType ++
  omitempty "stardog_license" v.LicensePath

/-- JSON decoding into a zero-valued `AwsEbsVolumes` by its field tags. -/
def AwsEbsVolumes.unmarshal (o : JsonObj) : AwsEbsVolumes :=
  { DeploymentName := jsonField o "deployment_name"
    Region := jsonField o "aws_region"
    SizeOfEachVolume := jsonField o "storage_size"
    ClusterSize := jsonField o "cluster_size"
    AwsKeyName := jsonField o "aws_key_name"
    KeyPath := jsonField o "key_path"
    AmiID := jsonField o "ami"
    InstanceType := jsonField o "instance_type"
    LicensePath := jsonField o "stardog_license" }

/-- JSON encoding of `AwsEc2Instance` by its field tags. -/
def AwsEc2Instance.marshal (i : AwsEc2Instance) : JsonObj :=
  omitempty "deployment_name" i.DeploymentName ++
  omitempty "aws_region" i.Region ++
  omitempty "aws_key_name" i.KeyName ++
  omitempty "version" i.Version ++
  omitempty "zk_instance_type" i.ZkInstanceType ++
  omitempty "stardog_instance_type" i.SdInstanceType ++
  omitempty "zookeeper_size" i.ZkSize ++
  omitempty "stardog_size" i.SdSize ++
  omitempty "baseami" i.AmiID ++
  omitempty "private_key" i.PrivateKey ++
  omitempty "http_subnet" i.HTTPMask

/-- Function `NewAwsEbsVolumeManager`. -/
def NewAwsEbsVolumeManager (dd : awsDeploymentDescription) : AwsEbsVolumes :=
  { DeploymentName := dd.Name
    Region := dd.Region
    AwsKeyName := dd.AwsKeyName
    KeyPath := dd.PrivateKeyPath
    AmiID := dd.AmiID
    InstanceType := dd.SdInstanceType
    VolumeDir := pathJoin [dd.deployDir, "etc", "terraform", "volumes"] }

/-- Function `LoadEbsVolume`; the volumes directory of a deployment holds the
tracked file `volumesConfig`. -/
def LoadEbsVolume (w : World) : Except String AwsEbsVolumes :=
  match LoadJSON .volumesConfig w with
  | .error e => .error e
  | .ok o => .ok (AwsEbsVolumes.unmarshal o)

/-- Method `AwsEbsVolumes.VolumeExists`. -/
def AwsEbsVolumes.VolumeExists (_v : AwsEbsVolumes) (w : World) : Bool :=
  PathExists w .volumesConfig

/-- Method `AwsEbsVolumes.CreateSet`. The `os.Stat` of the variables file only
decides whether a warning is logged. -/
def AwsEbsVolumes.CreateSet (env : Env) (v : AwsEbsVolumes) (licensePath : String)
    (sizeOfEachVolume clusterSize : Int) (w : World) : GoError × World :=
  match env.lookPath "terraform" with
  | none => (some "executable file not found in $PATH", w)
  | some terraformPath =>
    let v1 : AwsEbsVolumes :=
      { v with ClusterSize := sprintfD clusterSize
               SizeOfEachVolume := sprintfD sizeOfEachVolume
               LicensePath := licensePath }
    let confFile := pathJoin [v1.VolumeDir, "config.json"]
    match WriteJSON v1.marshal .volumesConfig w with
    | (some e, w1) => (some e, w1)
    | (none, w1) =>
      let cmdArray := [terraformPath, "apply", "-var-file", confFile]
      let cmd : Cmd := { Path := terraformPath, Args := cmdArray, Dir := v1.VolumeDir }
      match RunCommand env cmd w1 with
      | (some e, w2) => (some e, w2)
      | (none, w2) =>
        match osRemove .builderTf w2 with
        | (some e, w3) => (some e, w3)
        | (none, w3) =>
          match RunCommand env cmd w3 with
          | (some e, w4) => (some e, w4)
          | (none, w4) => (none, w4)

/-- Method `AwsEbsVolumes.DeleteSet`. -/
def AwsEbsVolumes.DeleteSet (env : Env) (v : AwsEbsVolumes) (w : World) : GoError × World :=
  let confFile := pathJoin [v.VolumeDir, "config.json"]
  match env.lookPath "terraform" with
  | none => (some "executable file not found in $PATH", w)
  | some terraformPath =>
    let cmdArray := [terraformPath, "destroy", "-force", "-var-file", confFile]
    let cmd : Cmd := { Path := terraformPath, Args := cmdArray, Dir := v.VolumeDir }
    match RunCommand env cmd w with
    | (some e, w1) => (some e, w1)
    | (none, w1) =>
      match osRemove .volumesConfig w1 with
      | (some e, w2) => (some e, w2)
      | (none, w2) => (none, w2)

/-- Function `NewEc2Instance`. -/
def NewEc2Instance (dd : awsDeploymentDescription) : AwsEc2Instance :=
  { DeploymentName := dd.Name
    Region := dd.Region
    KeyName := dd.AwsKeyName
    Version := dd.Version
    ZkInstanceType := dd.ZkInstanceType
    SdInstanceType := dd.SdInstanceType
    AmiID := dd.AmiID
    PrivateKey := dd.PrivateKeyPath
    DeployDir := dd.deployDir }

/-- Method `AwsEc2Instance.CreateInstance`. The `PathExists` of the variables
file only decides whether a warning is logged. -/
def AwsEc2Instance.CreateInstance (env : Env) (awsI : AwsEc2Instance) (zookeeperSize : Int)
    (mask : String) (w : World) : GoError × World :=
  match LoadEbsVolume w with
  | .error e => (some e, w)
  | .ok vol =>
    let awsI1 : AwsEc2Instance :=
      { awsI with ZkSize := sprintfD zookeeperSize
                  SdSize := vol.ClusterSize
                  HTTPMask := mask }
    let instanceWorkingDir := pathJoin [awsI1.DeployDir, "etc", "terraform", "instance"]
    let instanceConfPath := pathJoin [instanceWorkingDir, "instance.json"]
    match WriteJSON awsI1.marshal .instanceJson w with
    | (some e, w1) => (some e, w1)
    | (none, w1) =>
      match env.lookPath "terraform" with
      | none => (some "executable file not found in $PATH", w1)
      | some terraformPath =>
        let cmdArray := [terraformPath, "apply", "-var-file", instanceConfPath]
        let cmd : Cmd := { Path := terraformPath, Args := cmdArray, Dir := instanceWorkingDir }
        match RunCommand env cmd w1 with
        | (some e, w2) => (some e, w2)
        | (none, w2) => (none, w2)

/-- Method `AwsEc2Instance.DeleteInstance`. The error of the final `os.Remove`
is dropped. -/
def AwsEc2Instance.DeleteInstance (env : Env) (awsI : AwsEc2Instance) (w : World) :
    GoError × World :=
  let instanceWorkingDir := pathJoin [awsI.DeployDir, "etc", "terraform", "instance"]
  let instanceConfPath := pathJoin [instanceWorkingDir, "instance.json"]
  if !PathExists w .instanceJson then
    (some "There is no configured instance", w)
  else
    match env.lookPath "terraform" with
    | none => (some "executable file not found in $PATH", w)
    | some terraformPath =>
      let cmdArray := [terraformPath, "destroy", "-force", "-var-file", instanceConfPath]
      let cmd : Cmd := { Path := terraformPath, Args := cmdArray, Dir := instanceWorkingDir }
      match RunCommand env cmd w with
      | (some e, w1) => (some e, w1)
      | (none, w1) => (none, (osRemove .instanceJson w1).2)

/-- Method `AwsEc2Instance.InstanceExists`. -/
def AwsEc2Instance.InstanceExists (_awsI : AwsEc2Instance) (w : World) : Bool :=
  PathExists w .instanceJson

/-- Method `awsDeploymentDescription.CreateVolumeSet`. -/
def awsDeploymentDescription.CreateVolumeSet (env : Env) (dd : awsDeploymentDescription)
    (licensePath : String) (sizeOfEachVolume clusterSize : Int) (w : World) : GoError × World :=
  (NewAwsEbsVolumeManager dd).CreateSet env licensePath sizeOfEachVolume clusterSize w

/-- Method `awsDeploymentDescription.DeleteVolumeSet`. -/
def awsDeploymentDescription.DeleteVolumeSet (env : Env) (dd : awsDeploymentDescription)
    (w : World) : GoError × World :=
  (NewAwsEbsVolumeManager dd).DeleteSet env w

/-- Method `awsDeploymentDescription.VolumeExists`. -/
def awsDeploymentDescription.VolumeExists (dd : awsDeploymentDescription) (w : World) : Bool :=
  (NewAwsEbsVolumeManager dd).VolumeExists w

/-- Method `awsDeploymentDescription.CreateInstance`. -/
def awsDeploymentDescription.CreateInstance (env : Env) (dd : awsDeploymentDescription)
    (zookeeperSize : Int) (mask : String) (w : World) : GoError × World :=
  (NewEc2Instance dd).CreateInstance env zookeeperSize mask w

/-- Method `awsDeploymentDescription.DeleteInstance`. -/
def awsDeploymentDescription.DeleteInstance (env : Env) (dd : awsDeploymentDescription)
    (w : World) : GoError × World :=
  (NewEc2Instance dd).DeleteInstance env w

/-- Method `awsDeploymentDescription.InstanceExists`. -/
def awsDeploymentDescription.InstanceExists (dd : awsDeploymentDescription) (w : World) : Bool :=
  (NewEc2Instance dd).InstanceExists w

/-! ## Output parsing and the full status -/

/-- Type assertion `x.(string)` on an `interface{}`. -/
def assertString : JVal → GoResult String
  | .str s => .ret s
  | _ => .panic "interface conversion: interface \x7b\x7d is not string"

/-- Type assertion `x.([]interface{})` on an `interface{}`. -/
def assertSlice : JVal → GoResult (List JVal)
  | .arr xs => .ret xs
  | _ => .panic "interface conversion: interface \x7b\x7d is not []interface \x7b\x7d"

/-- The loop `for ndx, x := range interList { out[ndx] = x.(string) }`. -/
def assertStrings : List JVal → GoResult (List String)
  | [] => .ret []
  | x :: xs =>
    match assertString x with
    | .panic m => .panic m
    | .ret s =>
      match assertStrings xs with
      | .panic m => .panic m
      | .ret ss => .ret (s :: ss)

/-- The zero value of `OutputEntry`: what indexing a map yields for a missing key. -/
def zeroEntry : OutputEntry :=
  { Sensitive := false, Typ := "", Value := .null }

/-- Map lookup with the comma-ok form, `e, ok := try[k]`. -/
def mapLookup (doc : OutputDoc) (k : String) : Option OutputEntry :=
  doc.lookup k

/-- Map indexing `try[k]`. -/
def mapIndex (doc : OutputDoc) (k : String) : OutputEntry :=
  (mapLookup doc k).getD zeroEntry

/-- Struct `AwsVolumeStatusDescription`. -/
structure AwsVolumeStatusDescription where
  VolumeIds : List String
  deriving Repr, DecidableEq

/-- Struct `AwsInstanceStatusDescription`. -/
structure AwsInstanceStatusDescription where
  ZkNodesContact : List String
  deriving Repr, DecidableEq

/-- Method `AwsEbsVolumes.getStatusInformation`. -/
def AwsEbsVolumes.getStatusInformation (env : Env) (v : AwsEbsVolumes) :
    GoResult (Except String AwsVolumeStatusDescription) :=
  match env.lookPath "terraform" with
  | none => .ret (.error "executable file not found in $PATH")
  | some terraformPath =>
    let cmdArray := [terraformPath, "output", "-json"]
    let cmd : Cmd := { Path := terraformPath, Args := cmdArray, Dir := v.VolumeDir }
    match env.cmdOutput cmd with
    | .error e => .ret (.error e)
    | .ok data =>
      match env.unmarshalOutputs data with
      | .error e => .ret (.error e)
      | .ok try_ =>
        match mapLookup try_ "volumes" with
        | none => .ret (.error "Invalid volume results in terraform output")
        | some volsEnt =>
          match assertSlice volsEnt.Value with
          | .panic m => .panic m
          | .ret interList =>
            match assertStrings interList with
            | .panic m => .panic m
            | .ret ids => .ret (.ok { VolumeIds := ids })

/-- Function `getInstanceValues`: the instance as the call leaves it, and what
the call returns. -/
def getInstanceValues (env : Env) (awsI : AwsEc2Instance) (w : World) :
    GoResult (AwsEc2Instance × Except String AwsInstanceStatusDescription) :=
  let instanceWorkingDir := pathJoin [awsI.DeployDir, "etc", "terraform", "instance"]
  if !PathExists w .instanceJson then
    .ret (awsI, .error "There is no configured instance")
  else
    match env.lookPath "terraform" with
    | none => .ret (awsI, .error "executable file not found in $PATH")
    | some terraformPath =>
      let cmdArray := [terraformPath, "output", "-json"]
      let cmd : Cmd := { Path := terraformPath, Args := cmdArray, Dir := instanceWorkingDir }
      match env.cmdOutput cmd with
      | .error e => .ret (awsI, .error e)
      | .ok data =>
        match env.unmarshalOutputs data with
        | .error e => .ret (awsI, .error e)
        | .ok try_ =>
          match assertString (mapIndex try_ "stardog_internal_contact").Value with
          | .panic m => .panic m
          | .ret si =>
            match assertString (mapIndex try_ "stardog_contact").Value with
            | .panic m => .panic m
            | .ret s =>
              match assertString (mapIndex try_ "bastion_contact").Value with
              | .panic m => .panic m
              | .ret b =>
                match assertSlice (mapIndex try_ "zookeeper_nodes").Value with
                | .panic m => .panic m
                | .ret interList =>
                  match assertStrings interList with
                  | .panic m => .panic m
                  | .ret zs =>
                    let awsI1 : AwsEc2Instance :=
                      { awsI with StardogInternalContact := si
                                  StardogContact := s
                                  BastionContact := b
                                  ZkNodesContact := zs }
                    .ret (awsI1, .ok { ZkNodesContact := awsI1.ZkNodesContact })

/-- Struct `sdutils.StardogDescription`, by the fields the sources set; a nil
description is `none`. -/
structure StardogDescription where
  SSHHost : String
  StardogURL : String
  StardogInternalURL : String
  VolumeDescription : Option AwsVolumeStatusDescription
  InstanceDescription : Option AwsInstanceStatusDescription
  deriving Repr, DecidableEq

/-- The call `fmt.Sprintf("http://%s:5821", contact)`. -/
def sprintfURL (contact : String) : String :=
  "http://" ++ contact ++ ":5821"

/-- Method `awsDeploymentDescription.FullStatus`. An error of either query only
prints a message; the returned error is always nil. -/
def awsDeploymentDescription.FullStatus (env : Env) (dd : awsDeploymentDescription) (w : World) :
    GoResult (Except String StardogDescription) :=
  let vm := NewAwsEbsVolumeManager dd
  match vm.getStatusInformation env with
  | .panic m => .panic m
  | .ret volRes =>
    let volumeStatus := volRes.toOption
    let im := NewEc2Instance dd
    match getInstanceValues env im w with
    | .panic m => .panic m
    | .ret (im1, instRes) =>
      let instS := instRes.toOption
      .ret (.ok { SSHHost := im1.BastionContact
                  StardogURL := sprintfURL im1.StardogContact
                  StardogInternalURL := sprintfURL im1.StardogInternalContact
                  VolumeDescription := volumeStatus
                  InstanceDescription := instS })

/-! ## sdutils/deployment.go -/

/-- Struct `sdutils.BaseDeployment`, by the fields the sources use. -/
structure BaseDeployment where
  Name : String
  Version : String
  Directory : String
  PrivateKey : String
  CustomPropsFile : String
  deriving Repr, DecidableEq

/-- Function `strconv.ParseBool`. -/
def ParseBool (str : String) : Except String Bool :=
  if str = "1" ∨ str = "t" ∨ str = "T" ∨ str = "TRUE" ∨ str = "true" ∨ str = "True" then
    .ok true
  else if str = "0" ∨ str = "f" ∨ str = "F" ∨ str = "FALSE" ∨ str = "false" ∨ str = "False" then
    .ok false
  else
    .error "invalid syntax"

/-- Function `getSSHCommand`. -/
def getSSHCommand (env : Env) (baseD : BaseDeployment) (sd : StardogDescription) :
    Except String (List String) :=
  match env.lookPath "ssh" with
  | none => .error "executable file not found in $PATH"
  | some sshPath =>
    .ok [sshPath, "-t", "-t", "-i", baseD.PrivateKey,
         "-o", "StrictHostKeyChecking=no",
         "-o", "UserKnownHostsFile=/dev/null",
         "ubuntu" ++ "@" ++ sd.SSHHost]

/-- A probe that leaves the process: an HTTP GET or a subprocess run over ssh. -/
inductive Probe where
  | httpGet (url : String)
  | sshOutput (argv : List String)
  deriving Repr, DecidableEq

/-- Function `IsHealthy`. The argument `fullStatus` is what `d.FullStatus()`
returns; the result is the returned boolean and the probes made, in order. -/
def IsHealthy (env : Env) (baseD : BaseDeployment)
    (fullStatus : Except String StardogDescription) (internal : Bool) : Bool × List Probe :=
  match fullStatus with
  | .error _ => (false, [])
  | .ok sd =>
    if env.getenv "STARDOG_GRAVITON_UNIT_TEST" ≠ "" then
      let h := env.getenv "STARDOG_GRAVITON_HEALTHY"
      if h ≠ "" then
        match ParseBool h with
        | .error _ => (false, [])
        | .ok b => (b, [])
      else
        (true, [])
    else if internal then
      match getSSHCommand env baseD sd with
      | .error _ => (false, [])
      | .ok sshBase =>
        let sshCmd := sshBase ++
          ["/usr/bin/curl", "-s", "-o", "/dev/null", "-w", "%\x7bhttp_code\x7d",
           sd.StardogInternalURL ++ "/admin/healthcheck"]
        let cmd : Cmd := { Path := sshCmd.headD "", Args := sshCmd, Dir := "" }
        match env.cmdOutput cmd with
        | .error _ => (false, [Probe.sshOutput sshCmd])
        | .ok b => (decide (b = "200"), [Probe.sshOutput sshCmd])
    else
      let url := sd.StardogURL ++ "/admin/healthcheck"
      match env.httpGet url with
      | .error _ => (false, [Probe.httpGet url])
      | .ok statusCode => (decide (statusCode = 200), [Probe.httpGet url])

/-- What a call of `WaitForHealth` did: the error it returned, how often it
called `IsHealthy`, how often it slept and for how many seconds in total. -/
structure WaitOutcome where
  err : GoError
  polls : Nat
  sleeps : Nat
  slept : Nat
  deriving Repr, DecidableEq

/-- The loop of `WaitForHealth`,
`for i := 0; !IsHealthy(...); i++ { if i >= itCnt { return err }; Sleep }`,
on a budget of iterations. The argument `isHealthy t` is what `IsHealthy`
returns once `t` seconds have been slept. -/
def waitLoop (isHealthy : Nat → Bool) (pollInterval : Nat) (itCnt : Int) :
    Nat → Int → WaitOutcome → Option WaitOutcome
  | 0, _, _ => none
  | fuel + 1, i, acc =>
    if isHealthy acc.slept then
      some { acc with polls := acc.polls + 1, err := none }
    else if i ≥ itCnt then
      some { acc with polls := acc.polls + 1
                      err := some "Timed out waiting for the instance to get healthy" }
    else
      waitLoop isHealthy pollInterval itCnt fuel (i + 1)
        { acc with polls := acc.polls + 1
                   sleeps := acc.sleeps + 1
                   slept := acc.slept + pollInterval }

/-- Function `WaitForHealth`; the loop gets one iteration more than the
iteration cap, which it never exceeds. -/
def WaitForHealth (isHealthy : Nat → Bool) (waitTimeout : Int) : Option WaitOutcome :=
  let pollInterval : Nat := 2
  let itCnt : Int := Int.tdiv waitTimeout pollInterval
  waitLoop isHealthy pollInterval itCnt (itCnt.toNat + 1) 0
    { err := none, polls := 0, sleeps := 0, slept := 0 }

/-! ## Lifecycle calls on one deployment -/

/-- One lifecycle call on a deployment, with its arguments. -/
inductive Call where
  | CreateVolumeSet (licensePath : String) (sizeOfEachVolume clusterSize : Int)
  | CreateInstance (zookeeperSize : Int) (mask : String)
  | DeleteInstance
  | DeleteVolumeSet
  deriving Repr, DecidableEq

/-- Perform one call. -/
def Call.perform (env : Env) (dd : awsDeploymentDescription) (w : World) : Call → GoError × World
  | .CreateVolumeSet p s n => dd.CreateVolumeSet env p s n w
  | .CreateInstance z m => dd.CreateInstance env z m w
  | .DeleteInstance => dd.DeleteInstance env w
  | .DeleteVolumeSet => dd.DeleteVolumeSet env w

/-- Perform a sequence of calls, whatever each one returns. -/
def runCalls (env : Env) (dd : awsDeploymentDescription) (w : World) : List Call → World
  | [] => w
  | c :: cs => runCalls env dd (c.perform env dd w).2 cs

/-- Whether, along the sequence, `DeleteVolumeSet` is only called while the
instance variables file is absent. -/
def deleteVolumesLast (env : Env) (dd : awsDeploymentDescription) (w : World) : List Call → Bool
  | [] => true
  | c :: cs =>
    (c != Call.DeleteVolumeSet || !dd.InstanceExists w) &&
      deleteVolumesLast env dd (c.perform env dd w).2 cs

/-- The configured state: templates staged, no variables file. -/
def configured : World :=
  { fs := { staged := true, builderTf := true, volumesConfig := none, instanceJson := none }
    calls := [] }

/-- An outside world in which every program is found under `/usr/bin`, every
run through `RunCommand` succeeds, and nothing else answers. -/
def stubEnv : Env :=
  { lookPath := fun pgm => some ("/usr/bin/" ++ pgm)
    run := fun _ _ => true
    cmdOutput := fun _ => .error "exit status 1"
    unmarshalOutputs := fun _ => .error "unexpected end of JSON input"
    getenv := fun _ => ""
    httpGet := fun _ => .error "connection refused" }

/-- The deployment of the scenarios. -/
def demoDD : awsDeploymentDescription :=
  { Region := "us-west-1", AmiID := "ami-abc", AwsKeyName := "kp", ZkInstanceType := "t2.small"
    SdInstanceType := "m3.medium", PrivateKeyPath := "/tmp/k", CustomProps := "", HTTPMask := ""
    Version := "4.2", Name := "demo", deployDir := "/tmp/r/deployments/demo" }


/-- The base deployment of the scenarios. -/
def demoBase : BaseDeployment :=
  { Name := "demo", Version := "4.2", Directory := "/tmp/r/deployments/demo"
    PrivateKey := "/tmp/k", CustomPropsFile := "" }

/-- The status of the scenarios. -/
def demoSD : StardogDescription :=
  { SSHHost := "b.example"
    StardogURL := "http://s.example:5821"
    StardogInternalURL := "http://si.example:5821"
    VolumeDescription := none
    InstanceDescription := some { ZkNodesContact := ["z1", "z2", "z3"] } }

/-- An outside world, not in unit-test mode, whose HTTP server answers `r`. -/
def httpEnv (r : Except String Nat) : Env :=
  { stubEnv with httpGet := fun _ => r }

/-- An outside world in unit-test mode with `STARDOG_GRAVITON_HEALTHY` set to
`healthy`; its HTTP server and its ssh would both report a healthy cluster. -/
def unitTestEnv (healthy : String) : Env :=
  { stubEnv with
    getenv := fun k =>
      if k = "STARDOG_GRAVITON_UNIT_TEST" then "1"
      else if k = "STARDOG_GRAVITON_HEALTHY" then healthy
      else ""
    cmdOutput := fun _ => .ok "200"
    httpGet := fun _ => .ok 200 }

/-- The output document of the status scenario. -/
def statusDoc : OutputDoc :=
  [("bastion_contact", { Sensitive := false, Typ := "string", Value := .str "b.example" }),
   ("stardog_contact", { Sensitive := false, Typ := "string", Value := .str "s.example" }),
   ("stardog_internal_contact",
      { Sensitive := false, Typ := "string", Value := .str "si.example" }),
   ("zookeeper_nodes",
      { Sensitive := false, Typ := "list", Value := .arr [.str "z1", .str "z2", .str "z3"] })]

/-- An outside world whose `terraform output -json` decodes to `doc` in every
directory. -/
def outputEnv (doc : OutputDoc) : Env :=
  { stubEnv with
    cmdOutput := fun _ => .ok "terraform output"
    unmarshalOutputs := fun _ => .ok doc }

/-- The state after `CreateVolumeSet` and `CreateInstance` with the engine
succeeding: both variables files present. -/
def clusterUp : World :=
  runCalls stubEnv demoDD configured
    [Call.CreateVolumeSet "/tmp/lic" 10 3, Call.CreateInstance 3 "0.0.0.0/0"]

/-- An output document whose `volumes` entry is a string, not a list. -/
def badVolumesDoc : OutputDoc :=
  [("volumes", { Sensitive := false, Typ := "string", Value := .str "vol-1" })]

/-! ## Line scanning: aws/aws_instance.go -/

/-- Struct `sdutils.ScanResult`, by the fields the sources set. -/
structure ScanResult where
  Key : String
  Value : String
  deriving Repr, DecidableEq

/-- Function `strings.HasPrefix`. -/
def HasPrefix (s pre : String) : Bool :=
  pre.toList.isPrefixOf s.toList

/-- The scan of `strings.Split` for a non-empty separator: `skip` characters of
a separator just found are still to be passed over, `cur` holds the piece being
read, last character first. Each piece ends at the first place where the
separator starts, and the scan goes on behind that separator. -/
def splitScan (sep : List Char) : List Char → Nat → List Char → List (List Char)
  | [], _, cur => [cur.reverse]
  | _ :: cs, skip + 1, cur => splitScan sep cs skip cur
  | c :: cs, 0, cur =>
    if sep.isPrefixOf (c :: cs) then
      cur.reverse :: splitScan sep cs (sep.length - 1) []
    else
      splitScan sep cs 0 (c :: cur)

/-- Function `strings.Split`: with an empty separator the string is cut after
every character. -/
def Split (s sep : String) : List String :=
  if sep = "" then
    s.toList.map fun c => String.mk [c]
  else
    (splitScan sep.toList s.toList 0 []).map String.mk

/-- Whether the separator starts somewhere in the characters. -/
def containsScan (substr : List Char) : List Char → Bool
  | [] => substr.isPrefixOf []
  | c :: cs => substr.isPrefixOf (c :: cs) || containsScan substr cs

/-- Function `strings.Contains`. -/
def Contains (s substr : String) : Bool :=
  containsScan substr.toList s.toList

/-- An index expression `la[i]` on a slice: out of range it panics. -/
def sliceIndex (la : List String) (i : Nat) : GoResult String :=
  match la[i]? with
  | some x => .ret x
  | none => .panic "runtime error: index out of range"

/-- The loop `for _, k := range outputKeys` of `volumeLineScanner`. -/
def volumeLineScannerLoop (line : String) : List String → GoResult (Option ScanResult)
  | [] => .ret none
  | k :: ks =>
    if HasPrefix line k then
      let la := Split line " = "
      match sliceIndex la 0 with
      | .panic m => .panic m
      | .ret key =>
        match sliceIndex la 1 with
        | .panic m => .panic m
        | .ret value => .ret (some { Key := key, Value := value })
    else
      volumeLineScannerLoop line ks

/-- Function `volumeLineScanner`; a nil result is `none`. -/
def volumeLineScanner (line : String) : GoResult (Option ScanResult) :=
  let outputKeys := ["load_balancer_ip"]
  volumeLineScannerLoop line outputKeys

/-! ## Construction of a deployment: aws/aws_deployment.go -/

/-- Struct `awsPlugin`. -/
structure awsPlugin where
  Region : String
  AmiID : String
  AwsKeyName : String
  ZkInstanceType : String
  SdInstanceType : String
  BastionType : String
  deriving Repr, DecidableEq

/-- What the construction of a deployment consults outside the process. -/
structure Host where
  /-- result of `sdutils.AskUser(prompt, default)`: the answer and the error -/
  askUser : String → String → String × GoError
  /-- result of `loadAmiAmp`: the base image of each region -/
  loadAmiAmp : Except String (List (String × String))
  /-- result of `c.GetConfigDir()` -/
  configDir : String
  /-- whether placing the bundled templates fails -/
  stagingFails : Bool
  /-- result of `ioutil.ReadFile` -/
  readFile : String → Except String String

/-- Function `sdutils.DeploymentDir`. -/
def DeploymentDir (confDir deploymentName : String) : String :=
  pathJoin [confDir, "deployments", deploymentName]

/-- Modelled from the spec: `PlaceAsset` is not among the sources; it
materializes the bundled template tree under the destination directory and
returns the destination path, or fails; without the overwrite flag the files
already there are left intact. -/
def PlaceAsset (host : Host) (dest asset : String) (_overwrite : Bool) (w : World) :
    Except String String × World :=
  if host.stagingFails then
    (.error "asset could not be placed", w)
  else
    (.ok (pathJoin [dest, asset]),
     { w with fs := { w.fs with staged := true, builderTf := true } })

/-- What `newAwsDeploymentDescription` leaves behind when it returns without
an error: the description, the plugin and the base deployment it has written
into, and the files. -/
structure NewDeployment where
  dd : awsDeploymentDescription
  a : awsPlugin
  baseD : BaseDeployment
  w : World
  deriving Repr, DecidableEq

/-- The block `if a.AmiID == ""` of `newAwsDeploymentDescription`. -/
def lookupAmi (host : Host) (a : awsPlugin) : Except String awsPlugin :=
  if a.AmiID = "" then
    match host.loadAmiAmp with
    | .error _ => .error "Could not load the ami map"
    | .ok amiMap =>
      match amiMap.lookup a.Region with
      | some ami => .ok { a with AmiID := ami }
      | none =>
        match host.askUser "Stardog base AMI" "" with
        | (_, some e) => .error e
        | (ami, none) =>
          if ami = "" then
            .error "An AMI is required.  Please see the baseami subcommand"
          else
            .ok { a with AmiID := ami }
  else
    .ok a

/-- Function `newAwsDeploymentDescription`. On an error only the error is kept. -/
def newAwsDeploymentDescription (host : Host) (baseD : BaseDeployment) (a : awsPlugin)
    (w : World) : Except String NewDeployment :=
  match lookupAmi host a with
  | .error e => .error e
  | .ok a1 =>
    let keyAnswer : awsPlugin × GoError :=
      if a1.AwsKeyName = "" then
        ({ a1 with AwsKeyName := (host.askUser "EC2 keyname" "default").1 },
         (host.askUser "EC2 keyname" "default").2)
      else (a1, none)
    match keyAnswer with
    | (_, some e) => .error e
    | (a2, none) =>
      let regionAnswer : awsPlugin × GoError :=
        if a2.Region = "" then
          ({ a2 with AwsKeyName := (host.askUser "Region" "us-west-1").1 },
           (host.askUser "Region" "us-west-1").2)
        else (a2, none)
      match regionAnswer with
      | (_, some e) => .error e
      | (a3, none) =>
        let privateKeyAnswer : Except String BaseDeployment :=
          if baseD.PrivateKey = "" then
            match host.askUser "Private key path" "" with
            | (_, some e) => .error e
            | (k, none) =>
              if k = "" then .error "A path to a private key must be provided"
              else .ok { baseD with PrivateKey := k }
          else .ok baseD
        match privateKeyAnswer with
        | .error e => .error e
        | .ok baseD1 =>
          let deployDir := DeploymentDir host.configDir baseD1.Name
          match PlaceAsset host deployDir "etc/terraform" false w with
          | (.error e, _) => .error e
          | (.ok _assertDir, w1) =>
            let customData : Except String String :=
              if baseD1.CustomPropsFile ≠ "" then host.readFile baseD1.CustomPropsFile
              else .ok ""
            match customData with
            | .error e => .error e
            | .ok customData =>
              .ok { dd := { Region := a3.Region
                            AmiID := a3.AmiID
                            AwsKeyName := a3.AwsKeyName
                            ZkInstanceType := a3.ZkInstanceType
                            SdInstanceType := a3.SdInstanceType
                            Version := baseD1.Version
                            Name := baseD1.Name
                            PrivateKeyPath := baseD1.PrivateKey
                            deployDir := deployDir
                            CustomProps := customData
                            HTTPMask := "" }
                    a := a3
                    baseD := baseD1
                    w := w1 }

/-- A resolver that answers `r` to the `Region` prompt and the offered default
to every other prompt; no base image is known for any region. -/
def scriptedHost (r : String) : Host :=
  { askUser := fun prompt dflt => if prompt = "Region" then (r, none) else (dflt, none)
    loadAmiAmp := .ok []
    configDir := "/tmp/r"
    stagingFails := false
    readFile := fun _ => .error "open: no such file or directory" }

/-- The plugin of the construction scenario: base image and keypair given, the
region empty. -/
def demoPlugin : awsPlugin :=
  { Region := "", AmiID := "ami-abc", AwsKeyName := "kp", ZkInstanceType := "t2.small"
    SdInstanceType := "m3.medium", BastionType := "t2.small" }

/-- The state before a deployment is configured: nothing staged. -/
def absent : World :=
  { fs := { staged := false, builderTf := false, volumesConfig := none, instanceJson := none }
    calls := [] }

/-- An outside world as `stubEnv`, except that the runs through `RunCommand`
succeed or fail as scripted, in order; runs beyond the script succeed. -/
def scriptedRunEnv (results : List Bool) : Env :=
  { stubEnv with run := fun earlier _ => results.getD earlier.length true }

/-! # Theorems -/

/-! ## Effects of the primitives -/

theorem RunCommand_snd (env : Env) (cmd : Cmd) (w : World) :
    (RunCommand env cmd w).2 = { w with calls := w.calls ++ [cmd] } := by
  unfold RunCommand
  split <;> rfl

theorem RunCommand_eq {env : Env} {cmd : Cmd} {w w1 : World} {r : GoError}
    (h : RunCommand env cmd w = (r, w1)) : w1 = { w with calls := w.calls ++ [cmd] } := by
  rw [← RunCommand_snd env cmd w, h]

theorem WriteJSON_volumes_eq {o : JsonObj} {w w1 : World} {r : GoError}
    (h : WriteJSON o .volumesConfig w = (r, w1)) :
    w1.fs.instanceJson = w.fs.instanceJson ∧
    (w1.fs.volumesConfig = w.fs.volumesConfig ∨ w1.fs.volumesConfig.isSome = true) := by
  unfold WriteJSON at h
  split at h <;> simp at h <;> obtain ⟨-, rfl⟩ := h <;> simp

theorem WriteJSON_instance_eq {o : JsonObj} {w w1 : World} {r : GoError}
    (h : WriteJSON o .instanceJson w = (r, w1)) :
    w1.fs.volumesConfig = w.fs.volumesConfig := by
  unfold WriteJSON at h
  split at h <;> simp at h <;> obtain ⟨-, rfl⟩ := h <;> simp

theorem osRemove_builderTf_eq {w w1 : World} {r : GoError}
    (h : osRemove .builderTf w = (r, w1)) :
    w1.fs.instanceJson = w.fs.instanceJson ∧ w1.fs.volumesConfig = w.fs.volumesConfig := by
  unfold osRemove at h
  split at h <;> simp at h <;> obtain ⟨-, rfl⟩ := h <;> simp

theorem osRemove_volumes_eq {w w1 : World} {r : GoError}
    (h : osRemove .volumesConfig w = (r, w1)) :
    w1.fs.instanceJson = w.fs.instanceJson := by
  unfold osRemove at h
  split at h <;> simp at h <;> obtain ⟨-, rfl⟩ := h <;> simp

theorem osRemove_instance_snd (w : World) :
    (osRemove .instanceJson w).2.fs.volumesConfig = w.fs.volumesConfig := by
  unfold osRemove
  split <;> simp

/-- Method `CreateSet` leaves the instance variables file alone, and the volumes
variables file is as before or present. -/
theorem CreateSet_files (env : Env) (v : AwsEbsVolumes) (p : String) (s n : Int) (w : World) :
    ((v.CreateSet env p s n w).2.fs.instanceJson = w.fs.instanceJson) ∧
    ((v.CreateSet env p s n w).2.fs.volumesConfig = w.fs.volumesConfig ∨
      ((v.CreateSet env p s n w).2.fs.volumesConfig).isSome = true) := by
  unfold AwsEbsVolumes.CreateSet
  split
  · simp
  · simp only []
    split
    · rename_i h1
      exact WriteJSON_volumes_eq h1
    · rename_i h1
      have a1 := WriteJSON_volumes_eq h1
      split
      · rename_i h2
        have a2 := RunCommand_eq h2
        subst a2
        exact a1
      · rename_i h2
        have a2 := RunCommand_eq h2
        subst a2
        split
        · rename_i h3
          have a3 := osRemove_builderTf_eq h3
          simp at a3
          simp only [a3]
          exact a1
        · rename_i h3
          have a3 := osRemove_builderTf_eq h3
          simp at a3
          split <;>
          · rename_i h4
            have a4 := RunCommand_eq h4
            subst a4
            simp only [a3]
            exact a1

/-- Method `CreateInstance` leaves the volumes variables file alone, and changes
nothing at all unless that file is present. -/
theorem CreateInstance_files (env : Env) (i : AwsEc2Instance) (z : Int) (m : String) (w : World) :
    ((i.CreateInstance env z m w).2.fs.volumesConfig = w.fs.volumesConfig) ∧
    (w.fs.volumesConfig = none → (i.CreateInstance env z m w).2 = w) := by
  unfold AwsEc2Instance.CreateInstance LoadEbsVolume LoadJSON FS.read
  cases hv : w.fs.volumesConfig with
  | none => simp [hv]
  | some o =>
    simp only []
    split
    · rename_i h1
      simpa [hv] using WriteJSON_instance_eq h1
    · rename_i h1
      have a1 := WriteJSON_instance_eq h1
      split
      · simpa [hv] using a1
      · split <;>
        · rename_i h2
          have a2 := RunCommand_eq h2
          subst a2
          simpa [hv] using a1

theorem osRemove_instance_snd_instance (w : World) :
    (osRemove .instanceJson w).2.fs.instanceJson = none := by
  unfold osRemove FS.read
  split
  · rename_i h
    simpa using h
  · simp

/-- Method `DeleteInstance` leaves the volumes variables file alone, and the
instance variables file is as before or absent. -/
theorem DeleteInstance_files (env : Env) (i : AwsEc2Instance) (w : World) :
    (i.DeleteInstance env w).2.fs.volumesConfig = w.fs.volumesConfig ∧
    ((i.DeleteInstance env w).2.fs.instanceJson = w.fs.instanceJson ∨
      (i.DeleteInstance env w).2.fs.instanceJson = none) := by
  unfold AwsEc2Instance.DeleteInstance
  simp only []
  split
  · simp
  · split
    · simp
    · split
      · rename_i h2
        have a2 := RunCommand_eq h2
        subst a2
        simp
      · rename_i h2
        have a2 := RunCommand_eq h2
        subst a2
        rw [osRemove_instance_snd, osRemove_instance_snd_instance]
        simp

/-- Method `DeleteSet` leaves the instance variables file alone. -/
theorem DeleteSet_files (env : Env) (v : AwsEbsVolumes) (w : World) :
    (v.DeleteSet env w).2.fs.instanceJson = w.fs.instanceJson := by
  unfold AwsEbsVolumes.DeleteSet
  simp only []
  split
  · rfl
  · split
    · rename_i h2
      have a2 := RunCommand_eq h2
      subst a2
      rfl
    · rename_i h2
      have a2 := RunCommand_eq h2
      subst a2
      split <;>
      · rename_i h3
        simpa using osRemove_volumes_eq h3

theorem InstanceExists_iff (dd : awsDeploymentDescription) (w : World) :
    dd.InstanceExists w = w.fs.instanceJson.isSome := rfl

theorem VolumeExists_iff (dd : awsDeploymentDescription) (w : World) :
    dd.VolumeExists w = w.fs.volumesConfig.isSome := rfl

/-- One call keeps `InstanceExists → VolumeExists`, provided `DeleteVolumeSet`
is not called while the instance variables file is present. -/
theorem perform_keeps (env : Env) (dd : awsDeploymentDescription) (w : World) (c : Call)
    (hc : (c != Call.DeleteVolumeSet || !dd.InstanceExists w) = true)
    (hw : dd.InstanceExists w = true → dd.VolumeExists w = true) :
    dd.InstanceExists (c.perform env dd w).2 = true →
      dd.VolumeExists (c.perform env dd w).2 = true := by
  rw [InstanceExists_iff, VolumeExists_iff] at *
  cases c with
  | CreateVolumeSet p s n =>
    have h := CreateSet_files env (NewAwsEbsVolumeManager dd) p s n w
    simp only [Call.perform, awsDeploymentDescription.CreateVolumeSet]
    rw [h.1]
    rcases h.2 with h2 | h2
    · rw [h2]; exact hw
    · intro _; exact h2
  | CreateInstance z m =>
    have h := CreateInstance_files env (NewEc2Instance dd) z m w
    simp only [Call.perform, awsDeploymentDescription.CreateInstance]
    rw [h.1]
    cases hv : w.fs.volumesConfig with
    | none => rw [h.2 hv]; simpa [hv] using hw
    | some o => simp
  | DeleteInstance =>
    have h := DeleteInstance_files env (NewEc2Instance dd) w
    simp only [Call.perform, awsDeploymentDescription.DeleteInstance]
    rw [h.1]
    rcases h.2 with h2 | h2
    · rw [h2]; exact hw
    · rw [h2]; simp
  | DeleteVolumeSet =>
    have h := DeleteSet_files env (NewAwsEbsVolumeManager dd) w
    simp only [Call.perform, awsDeploymentDescription.DeleteVolumeSet]
    rw [h]
    simp at hc
    simp [hc]

/-! ## The instance within the volumes -/

/-- Along a sequence in which `DeleteVolumeSet` is only called while the
instance variables file is absent, `InstanceExists → VolumeExists` is kept. -/
theorem runCalls_keeps (env : Env) (dd : awsDeploymentDescription) (calls : List Call) :
    ∀ w : World, deleteVolumesLast env dd w calls = true →
      (dd.InstanceExists w = true → dd.VolumeExists w = true) →
      dd.InstanceExists (runCalls env dd w calls) = true →
        dd.VolumeExists (runCalls env dd w calls) = true := by
  induction calls with
  | nil => intro w _ hw; exact hw
  | cons c cs ih =>
    intro w hg hw
    simp only [deleteVolumesLast, Bool.and_eq_true] at hg
    exact ih _ hg.2 (perform_keeps env dd w c hg.1 hw)

/-- C1, as stated, fails: after `CreateVolumeSet` and `CreateInstance` with the
engine succeeding, `DeleteVolumeSet` returns nil and removes the volumes
variables file although the instance variables file is still there, so that
`InstanceExists()` holds and `VolumeExists()` does not. -/
theorem C1_deleteVolumeSet_unguarded :
    demoDD.InstanceExists (runCalls stubEnv demoDD configured
        [Call.CreateVolumeSet "/tmp/lic" 10 3, Call.CreateInstance 3 "0.0.0.0/0"]) = true ∧
    (demoDD.DeleteVolumeSet stubEnv (runCalls stubEnv demoDD configured
        [Call.CreateVolumeSet "/tmp/lic" 10 3, Call.CreateInstance 3 "0.0.0.0/0"])).1 = none ∧
    demoDD.InstanceExists (runCalls stubEnv demoDD configured
        [Call.CreateVolumeSet "/tmp/lic" 10 3, Call.CreateInstance 3 "0.0.0.0/0",
         Call.DeleteVolumeSet]) = true ∧
    demoDD.VolumeExists (runCalls stubEnv demoDD configured
        [Call.CreateVolumeSet "/tmp/lic" 10 3, Call.CreateInstance 3 "0.0.0.0/0",
         Call.DeleteVolumeSet]) = false := by
  decide

/-- C1, amended: in every state reached from the configured state by a
sequence of `CreateVolumeSet`, `CreateInstance`, `DeleteInstance` and
`DeleteVolumeSet` calls in which `DeleteVolumeSet` is only called while the
instance variables file is absent, `InstanceExists()` implies `VolumeExists()`;
this holds whatever the engine does. -/
theorem C1_instance_within_volumes (env : Env) (dd : awsDeploymentDescription)
    (calls : List Call) (h : deleteVolumesLast env dd configured calls = true) :
    dd.InstanceExists (runCalls env dd configured calls) = true →
      dd.VolumeExists (runCalls env dd configured calls) = true :=
  runCalls_keeps env dd calls configured h (fun hi => by cases hi)

/-- C1, amended, at a sequence that ends with both variables files present. -/
theorem C1_instance_within_volumes_witness :
    deleteVolumesLast stubEnv demoDD configured
        [Call.CreateVolumeSet "/tmp/lic" 10 3, Call.DeleteVolumeSet,
         Call.CreateVolumeSet "/tmp/lic" 10 3, Call.CreateInstance 3 "0.0.0.0/0"] = true ∧
    demoDD.InstanceExists (runCalls stubEnv demoDD configured
        [Call.CreateVolumeSet "/tmp/lic" 10 3, Call.DeleteVolumeSet,
         Call.CreateVolumeSet "/tmp/lic" 10 3, Call.CreateInstance 3 "0.0.0.0/0"]) = true ∧
    demoDD.VolumeExists (runCalls stubEnv demoDD configured
        [Call.CreateVolumeSet "/tmp/lic" 10 3, Call.DeleteVolumeSet,
         Call.CreateVolumeSet "/tmp/lic" 10 3, Call.CreateInstance 3 "0.0.0.0/0"]) = true :=
  ⟨by decide, by decide,
    C1_instance_within_volumes stubEnv demoDD _ (by decide) (by decide)⟩

/-! ## Health check -/

/-- C2: outside unit-test mode and with a full status at hand, the external
health check makes exactly one probe, the GET of the stardog URL followed by
`/admin/healthcheck`, and returns true iff that GET completes with status 200;
any other status and any transport error give false. -/
theorem C2_external_health (env : Env) (baseD : BaseDeployment) (sd : StardogDescription)
    (hU : env.getenv "STARDOG_GRAVITON_UNIT_TEST" = "") :
    ((IsHealthy env baseD (.ok sd) false).1 = true ↔
        env.httpGet (sd.StardogURL ++ "/admin/healthcheck") = .ok 200) ∧
    (∀ code, code ≠ 200 → env.httpGet (sd.StardogURL ++ "/admin/healthcheck") = .ok code →
        (IsHealthy env baseD (.ok sd) false).1 = false) ∧
    (∀ e, env.httpGet (sd.StardogURL ++ "/admin/healthcheck") = .error e →
        (IsHealthy env baseD (.ok sd) false).1 = false) ∧
    (IsHealthy env baseD (.ok sd) false).2 =
        [Probe.httpGet (sd.StardogURL ++ "/admin/healthcheck")] := by
  unfold IsHealthy
  simp only [hU, ne_eq, not_true_eq_false, if_false]
  cases h : env.httpGet (sd.StardogURL ++ "/admin/healthcheck") with
  | error e => simp
  | ok code =>
    simp
    intro c hc hcc
    rw [hcc]
    exact hc

/-- C2 at servers answering 200, 199, 201 and 503, and at a refused connection. -/
theorem C2_external_health_witness :
    (IsHealthy (httpEnv (.ok 200)) demoBase (.ok demoSD) false).1 = true ∧
    (IsHealthy (httpEnv (.ok 199)) demoBase (.ok demoSD) false).1 = false ∧
    (IsHealthy (httpEnv (.ok 201)) demoBase (.ok demoSD) false).1 = false ∧
    (IsHealthy (httpEnv (.ok 503)) demoBase (.ok demoSD) false).1 = false ∧
    (IsHealthy (httpEnv (.error "connection refused")) demoBase (.ok demoSD) false).1 = false :=
  ⟨(C2_external_health (httpEnv (.ok 200)) demoBase demoSD rfl).1.2 rfl,
   (C2_external_health (httpEnv (.ok 199)) demoBase demoSD rfl).2.1 199 (by decide) rfl,
   (C2_external_health (httpEnv (.ok 201)) demoBase demoSD rfl).2.1 201 (by decide) rfl,
   (C2_external_health (httpEnv (.ok 503)) demoBase demoSD rfl).2.1 503 (by decide) rfl,
   (C2_external_health (httpEnv (.error "connection refused")) demoBase demoSD rfl).2.2.1 _ rfl⟩


/-- What `IsHealthy` returns in unit-test mode, as a function of the value of
`STARDOG_GRAVITON_HEALTHY` alone. -/
theorem IsHealthy_unit_test (env : Env) (baseD : BaseDeployment) (sd : StardogDescription)
    (internal : Bool) (hU : env.getenv "STARDOG_GRAVITON_UNIT_TEST" ≠ "") :
    IsHealthy env baseD (.ok sd) internal =
      (if env.getenv "STARDOG_GRAVITON_HEALTHY" ≠ "" then
        match ParseBool (env.getenv "STARDOG_GRAVITON_HEALTHY") with
        | .error _ => (false, [])
        | .ok b => (b, [])
      else (true, [])) := by
  unfold IsHealthy
  simp only [hU, ne_eq, not_false_eq_true, if_true]

/-- C3, as stated, fails: in unit-test mode with `STARDOG_GRAVITON_HEALTHY`
set to `true`, `IsHealthy` returns false for both values of the internal flag
when `FullStatus` returns an error. -/
theorem C3_status_failure_overrides :
    (unitTestEnv "true").getenv "STARDOG_GRAVITON_UNIT_TEST" = "1" ∧
    (unitTestEnv "true").getenv "STARDOG_GRAVITON_HEALTHY" = "true" ∧
    IsHealthy (unitTestEnv "true") demoBase (.error "status failure") true = (false, []) ∧
    IsHealthy (unitTestEnv "true") demoBase (.error "status failure") false = (false, []) := by
  decide

/-- C3, amended: when `STARDOG_GRAVITON_UNIT_TEST` is non-empty and `FullStatus`
succeeds, `IsHealthy` makes no network or ssh probe and its result depends
only on `STARDOG_GRAVITON_HEALTHY`, for both values of the internal flag: true
when the variable is `true`, false when it is `false`, true when it is unset
or empty. -/
theorem C3_unit_test_health (env : Env) (baseD : BaseDeployment) (sd : StardogDescription)
    (internal : Bool) (hU : env.getenv "STARDOG_GRAVITON_UNIT_TEST" ≠ "") :
    (IsHealthy env baseD (.ok sd) internal).2 = [] ∧
    (∀ (env2 : Env) (baseD2 : BaseDeployment) (sd2 : StardogDescription) (internal2 : Bool),
        env2.getenv "STARDOG_GRAVITON_UNIT_TEST" ≠ "" →
        env2.getenv "STARDOG_GRAVITON_HEALTHY" = env.getenv "STARDOG_GRAVITON_HEALTHY" →
        IsHealthy env2 baseD2 (.ok sd2) internal2 = IsHealthy env baseD (.ok sd) internal) ∧
    (env.getenv "STARDOG_GRAVITON_HEALTHY" = "true" →
        (IsHealthy env baseD (.ok sd) internal).1 = true) ∧
    (env.getenv "STARDOG_GRAVITON_HEALTHY" = "false" →
        (IsHealthy env baseD (.ok sd) internal).1 = false) ∧
    (env.getenv "STARDOG_GRAVITON_HEALTHY" = "" →
        (IsHealthy env baseD (.ok sd) internal).1 = true) := by
  rw [IsHealthy_unit_test env baseD sd internal hU]
  refine ⟨?_, ?_, ?_, ?_, ?_⟩
  · split
    · split <;> rfl
    · rfl
  · intro env2 baseD2 sd2 internal2 hU2 hH
    rw [IsHealthy_unit_test env2 baseD2 sd2 internal2 hU2, hH]
  · intro h
    rw [h]
    decide
  · intro h
    rw [h]
    decide
  · intro h
    rw [h]
    decide

/-- C3, amended, in unit-test mode with a healthy-looking network: the variable
set to `true`, to `false` and left empty, on the internal and the external path. -/
theorem C3_unit_test_health_witness :
    IsHealthy (unitTestEnv "true") demoBase (.ok demoSD) true = (true, []) ∧
    IsHealthy (unitTestEnv "false") demoBase (.ok demoSD) true = (false, []) ∧
    IsHealthy (unitTestEnv "false") demoBase (.ok demoSD) false = (false, []) ∧
    IsHealthy (unitTestEnv "") demoBase (.ok demoSD) true = (true, []) :=
  ⟨Prod.ext ((C3_unit_test_health (unitTestEnv "true") demoBase demoSD true (by decide)).2.2.1 rfl)
      (C3_unit_test_health (unitTestEnv "true") demoBase demoSD true (by decide)).1,
   Prod.ext
      ((C3_unit_test_health (unitTestEnv "false") demoBase demoSD true (by decide)).2.2.2.1 rfl)
      (C3_unit_test_health (unitTestEnv "false") demoBase demoSD true (by decide)).1,
   Prod.ext
      ((C3_unit_test_health (unitTestEnv "false") demoBase demoSD false (by decide)).2.2.2.1 rfl)
      (C3_unit_test_health (unitTestEnv "false") demoBase demoSD false (by decide)).1,
   Prod.ext ((C3_unit_test_health (unitTestEnv "") demoBase demoSD true (by decide)).2.2.2.2 rfl)
      (C3_unit_test_health (unitTestEnv "") demoBase demoSD true (by decide)).1⟩

/-! ## Waiting for health -/

/-- The loop on a probe that is unhealthy at the next `k` polls and healthy at
the one after, with `k` sleeps left under the cap: it returns nil after `k`
sleeps and `k + 1` polls. -/
theorem waitLoop_healthy (isHealthy : Nat → Bool) (itCnt : Int) (k : Nat) :
    ∀ (fuel : Nat) (i : Int) (acc : WaitOutcome),
      k < fuel → i + k ≤ itCnt →
      (∀ j, j < k → isHealthy (acc.slept + 2 * j) = false) →
      isHealthy (acc.slept + 2 * k) = true →
      waitLoop isHealthy 2 itCnt fuel i acc =
        some { err := none, polls := acc.polls + k + 1, sleeps := acc.sleeps + k
               slept := acc.slept + 2 * k } := by
  induction k with
  | zero =>
    intro fuel i acc hf _ _ hh
    obtain ⟨f, rfl⟩ : ∃ f, fuel = f + 1 := ⟨fuel - 1, by omega⟩
    simp only [waitLoop]
    simp only [Nat.mul_zero, Nat.add_zero] at hh
    simp [hh]
  | succ k ih =>
    intro fuel i acc hf hi hun hh
    obtain ⟨f, rfl⟩ : ∃ f, fuel = f + 1 := ⟨fuel - 1, by omega⟩
    have h0 : isHealthy acc.slept = false := by simpa using hun 0 (by omega)
    have hlt : ¬ i ≥ itCnt := by push_cast at hi; omega
    simp only [waitLoop, h0, hlt, if_false, Bool.false_eq_true]
    rw [ih f (i + 1) _ (by omega) (by push_cast at hi ⊢; omega)]
    · simp only [WaitOutcome.mk.injEq, Option.some.injEq, true_and]
      omega
    · intro j hj
      have e : acc.slept + 2 + 2 * j = acc.slept + 2 * (j + 1) := by omega
      show isHealthy (acc.slept + 2 + 2 * j) = false
      rw [e]
      exact hun (j + 1) (by omega)
    · have e : acc.slept + 2 + 2 * k = acc.slept + 2 * (k + 1) := by omega
      show isHealthy (acc.slept + 2 + 2 * k) = true
      rw [e]
      exact hh

/-- The loop on a probe that is unhealthy at the next `k + 1` polls, with
exactly `k` sleeps left under the cap: it returns the timed-out error after `k`
sleeps and `k + 1` polls. -/
theorem waitLoop_timeout (isHealthy : Nat → Bool) (itCnt : Int) (k : Nat) :
    ∀ (fuel : Nat) (i : Int) (acc : WaitOutcome),
      k < fuel → i + k = itCnt →
      (∀ j, j ≤ k → isHealthy (acc.slept + 2 * j) = false) →
      waitLoop isHealthy 2 itCnt fuel i acc =
        some { err := some "Timed out waiting for the instance to get healthy"
               polls := acc.polls + k + 1, sleeps := acc.sleeps + k
               slept := acc.slept + 2 * k } := by
  induction k with
  | zero =>
    intro fuel i acc hf hi hun
    obtain ⟨f, rfl⟩ : ∃ f, fuel = f + 1 := ⟨fuel - 1, by omega⟩
    have h0 : isHealthy acc.slept = false := by simpa using hun 0 (by omega)
    have hge : i ≥ itCnt := by simp at hi; omega
    simp [waitLoop, h0, hge]
  | succ k ih =>
    intro fuel i acc hf hi hun
    obtain ⟨f, rfl⟩ : ∃ f, fuel = f + 1 := ⟨fuel - 1, by omega⟩
    have h0 : isHealthy acc.slept = false := by simpa using hun 0 (by omega)
    have hlt : ¬ i ≥ itCnt := by push_cast at hi; omega
    simp only [waitLoop, h0, hlt, if_false, Bool.false_eq_true]
    rw [ih f (i + 1) _ (by omega) (by push_cast at hi ⊢; omega)]
    · simp only [WaitOutcome.mk.injEq, Option.some.injEq, true_and]
      omega
    · intro j hj
      have e : acc.slept + 2 + 2 * j = acc.slept + 2 * (j + 1) := by omega
      show isHealthy (acc.slept + 2 + 2 * j) = false
      rw [e]
      exact hun (j + 1) (by omega)


/-- The iteration cap of `WaitForHealth` on a non-negative timeout. -/
theorem itCnt_eq (T : Int) (hT : 0 ≤ T) : Int.tdiv T ((2 : Nat) : Int) = T / 2 := by
  rw [Int.tdiv_eq_ediv hT (by decide)]
  rfl

/-- The loop returns whenever its budget exceeds the sleeps left under the cap. -/
theorem waitLoop_returns (isHealthy : Nat → Bool) (itCnt : Int) (fuel : Nat) :
    ∀ (i : Int) (acc : WaitOutcome), (itCnt - i).toNat < fuel →
      ∃ o, waitLoop isHealthy 2 itCnt fuel i acc = some o := by
  induction fuel with
  | zero => intro i acc h; omega
  | succ f ih =>
    intro i acc h
    simp only [waitLoop]
    split
    · exact ⟨_, rfl⟩
    · split
      · exact ⟨_, rfl⟩
      · rename_i hlt
        exact ih (i + 1) _ (by omega)

/-- Function `WaitForHealth` returns for every probe and every timeout: the
budget of the loop is never used up. -/
theorem WaitForHealth_returns (isHealthy : Nat → Bool) (waitTimeout : Int) :
    ∃ o, WaitForHealth isHealthy waitTimeout = some o := by
  unfold WaitForHealth
  exact waitLoop_returns isHealthy _ _ 0 _ (by omega)

/-- C4: for every timeout `T ≥ 0` and a probe that never reports healthy,
`WaitForHealth(T)` returns the timed-out error after exactly `floor(T/2)`
sleeps of 2 seconds, which is at most `T` seconds of sleeping, and exactly
`floor(T/2) + 1` calls of `IsHealthy`. -/
theorem C4_wait_timeout (T : Int) (hT : 0 ≤ T) :
    WaitForHealth (fun _ => false) T =
      some { err := some "Timed out waiting for the instance to get healthy"
             polls := (T / 2).toNat + 1
             sleeps := (T / 2).toNat
             slept := 2 * (T / 2).toNat } ∧
    ((2 * (T / 2).toNat : Nat) : Int) ≤ T := by
  constructor
  · unfold WaitForHealth
    simp only [itCnt_eq T hT]
    rw [waitLoop_timeout (fun _ => false) (T / 2) (T / 2).toNat _ 0 _ (by omega) (by omega)
      (fun _ _ => rfl)]
    simp
  · omega

/-- C4 at `T = 4`: the error comes after 2 sleeps, 4 seconds and 3 polls. -/
theorem C4_wait_timeout_witness :
    (0 : Int) ≤ 4 ∧
    WaitForHealth (fun _ => false) 4 =
      some { err := some "Timed out waiting for the instance to get healthy"
             polls := 3, sleeps := 2, slept := 4 } :=
  ⟨by decide, (C4_wait_timeout 4 (by decide)).1⟩

/-- C5, as stated, fails: with `T = 3` and a probe that turns healthy at
second `N = 3`, the polls are at seconds 0 and 2 and `WaitForHealth` returns
the timed-out error. -/
theorem C5_odd_timeout_misses :
    WaitForHealth (fun t => decide (3 ≤ t)) 3 =
      some { err := some "Timed out waiting for the instance to get healthy"
             polls := 2, sleeps := 1, slept := 2 } := by
  decide

/-- C5, amended: for every timeout `T ≥ 0` and every `N` with
`0 ≤ N ≤ 2 * floor(T/2)`, if the probe is unhealthy at every time before second
`N` and healthy from second `N` on, `WaitForHealth(T)` returns without error
after `ceil(N/2)` sleeps of 2 seconds, which is at most `T + 2` seconds. -/
theorem C5_wait_healthy (T : Int) (N : Nat) (isHealthy : Nat → Bool) (hT : 0 ≤ T)
    (hN : (N : Int) ≤ 2 * (T / 2))
    (hbefore : ∀ t, t < N → isHealthy t = false)
    (hafter : ∀ t, N ≤ t → isHealthy t = true) :
    WaitForHealth isHealthy T =
      some { err := none
             polls := (N + 1) / 2 + 1
             sleeps := (N + 1) / 2
             slept := 2 * ((N + 1) / 2) } ∧
    ((2 * ((N + 1) / 2) : Nat) : Int) ≤ T + 2 := by
  constructor
  · unfold WaitForHealth
    simp only [itCnt_eq T hT]
    rw [waitLoop_healthy isHealthy (T / 2) ((N + 1) / 2) _ 0 _ (by omega) (by omega)
      (fun j hj => hbefore _ (by simp only []; omega)) (hafter _ (by simp only []; omega))]
    simp
  · omega

/-- C5, amended, at `T = 4` and a probe that turns healthy at second 3. -/
theorem C5_wait_healthy_witness :
    WaitForHealth (fun t => decide (3 ≤ t)) 4 =
      some { err := none, polls := 3, sleeps := 2, slept := 4 } :=
  (C5_wait_healthy 4 3 (fun t => decide (3 ≤ t)) (by decide) (by decide)
    (fun t ht => by simp; omega) (fun t ht => by simp; omega)).1

/-! ## Output parsing and the full status -/

/-- The strings of a list, each a JSON string, pass the element-wise assertion. -/
theorem assertStrings_map_str (zs : List String) :
    assertStrings (zs.map JVal.str) = .ret zs := by
  induction zs with
  | nil => rfl
  | cons z zs ih => simp [assertStrings, assertString, ih]

/-- Function `getInstanceValues` on an output document that carries the three
contacts as strings and the coordinator nodes as a list of strings. -/
theorem getInstanceValues_ok (env : Env) (awsI : AwsEc2Instance) (w : World)
    (tp data : String) (doc : OutputDoc) (b s si : String) (zs : List String)
    (hI : PathExists w .instanceJson = true)
    (hT : env.lookPath "terraform" = some tp)
    (hO : env.cmdOutput { Path := tp, Args := [tp, "output", "-json"]
                          Dir := pathJoin [awsI.DeployDir, "etc", "terraform", "instance"] }
            = .ok data)
    (hU : env.unmarshalOutputs data = .ok doc)
    (hb : (mapIndex doc "bastion_contact").Value = .str b)
    (hs : (mapIndex doc "stardog_contact").Value = .str s)
    (hsi : (mapIndex doc "stardog_internal_contact").Value = .str si)
    (hz : (mapIndex doc "zookeeper_nodes").Value = .arr (zs.map JVal.str)) :
    getInstanceValues env awsI w =
      .ret ({ awsI with StardogInternalContact := si, StardogContact := s
                        BastionContact := b, ZkNodesContact := zs },
            .ok { ZkNodesContact := zs }) := by
  unfold getInstanceValues
  simp only [hI, hT, hO, hU, hb, hs, hsi, hz, assertString, assertSlice, assertStrings_map_str,
    Bool.not_true, Bool.false_eq_true, if_false]

/-- C6: when the instance variables file is present, terraform is found, its
`output -json` in the instance directory decodes to a document that carries
strings `b`, `s`, `si` under `bastion_contact`, `stardog_contact`,
`stardog_internal_contact` and the list of strings `zs` under
`zookeeper_nodes`, and the volumes status query returns, `FullStatus` returns
without error `SSHHost = b`, `StardogURL = "http://" ++ s ++ ":5821"`,
`StardogInternalURL = "http://" ++ si ++ ":5821"` and an instance description
whose coordinator contacts are exactly `zs`. -/
theorem C6_full_status (env : Env) (dd : awsDeploymentDescription) (w : World)
    (tp data : String) (doc : OutputDoc) (b s si : String) (zs : List String)
    (volRes : Except String AwsVolumeStatusDescription)
    (hI : dd.InstanceExists w = true)
    (hT : env.lookPath "terraform" = some tp)
    (hO : env.cmdOutput { Path := tp, Args := [tp, "output", "-json"]
                          Dir := pathJoin [dd.deployDir, "etc", "terraform", "instance"] }
            = .ok data)
    (hU : env.unmarshalOutputs data = .ok doc)
    (hb : (mapIndex doc "bastion_contact").Value = .str b)
    (hs : (mapIndex doc "stardog_contact").Value = .str s)
    (hsi : (mapIndex doc "stardog_internal_contact").Value = .str si)
    (hz : (mapIndex doc "zookeeper_nodes").Value = .arr (zs.map JVal.str))
    (hV : (NewAwsEbsVolumeManager dd).getStatusInformation env = .ret volRes) :
    dd.FullStatus env w =
      .ret (.ok { SSHHost := b
                  StardogURL := "http://" ++ s ++ ":5821"
                  StardogInternalURL := "http://" ++ si ++ ":5821"
                  VolumeDescription := volRes.toOption
                  InstanceDescription := some { ZkNodesContact := zs } }) := by
  unfold awsDeploymentDescription.FullStatus
  simp only [hV]
  rw [getInstanceValues_ok env (NewEc2Instance dd) w tp data doc b s si zs hI hT hO hU hb hs hsi hz]
  rfl


/-- C6 at the status scenario: three contacts and three coordinator nodes. -/
theorem C6_full_status_witness :
    demoDD.FullStatus (outputEnv statusDoc) clusterUp =
      .ret (.ok { SSHHost := "b.example"
                  StardogURL := "http://s.example:5821"
                  StardogInternalURL := "http://si.example:5821"
                  VolumeDescription := none
                  InstanceDescription := some { ZkNodesContact := ["z1", "z2", "z3"] } }) :=
  C6_full_status (outputEnv statusDoc) demoDD clusterUp "/usr/bin/terraform" "terraform output"
    statusDoc "b.example" "s.example" "si.example" ["z1", "z2", "z3"]
    (.error "Invalid volume results in terraform output")
    (by decide) rfl rfl rfl rfl rfl rfl rfl rfl

/-- Function `getInstanceValues` when the instance variables file is absent. -/
theorem getInstanceValues_missing (env : Env) (awsI : AwsEc2Instance) (w : World)
    (hI : PathExists w .instanceJson = false) :
    getInstanceValues env awsI w = .ret (awsI, .error "There is no configured instance") := by
  unfold getInstanceValues
  simp [hI]

/-- C7, as stated, fails: with both sub-resources missing `FullStatus` returns
a description whose `StardogURL` and `StardogInternalURL` are `http://:5821`,
not the empty string. -/
theorem C7_urls_not_empty :
    demoDD.VolumeExists configured = false ∧
    demoDD.InstanceExists configured = false ∧
    demoDD.FullStatus stubEnv configured =
      .ret (.ok { SSHHost := ""
                  StardogURL := "http://:5821"
                  StardogInternalURL := "http://:5821"
                  VolumeDescription := none
                  InstanceDescription := none }) ∧
    "http://:5821" ≠ "" :=
  ⟨by decide, by decide, rfl, by decide⟩

/-- C7, amended: when the instance sub-resource is missing and the volumes
status query returns (with an error when the volumes are missing too),
`FullStatus` returns a description without an error and without panicking;
`SSHHost` is the empty string, `StardogURL` and `StardogInternalURL` are both
`http://:5821`, the instance description is nil and the volumes description is
nil unless the volumes query succeeded. When the volumes status query fails and
the instance query returns, `FullStatus` returns a description without an
error whose volumes description is nil and whose other fields are those of the
instance query. -/
theorem C7_missing_subresources (env : Env) (dd : awsDeploymentDescription) (w : World) :
    (∀ volRes, dd.InstanceExists w = false →
      (NewAwsEbsVolumeManager dd).getStatusInformation env = .ret volRes →
      dd.FullStatus env w =
        .ret (.ok { SSHHost := ""
                    StardogURL := "http://:5821"
                    StardogInternalURL := "http://:5821"
                    VolumeDescription := volRes.toOption
                    InstanceDescription := none })) ∧
    (∀ e im1 instRes,
      (NewAwsEbsVolumeManager dd).getStatusInformation env = .ret (.error e) →
      getInstanceValues env (NewEc2Instance dd) w = .ret (im1, instRes) →
      dd.FullStatus env w =
        .ret (.ok { SSHHost := im1.BastionContact
                    StardogURL := "http://" ++ im1.StardogContact ++ ":5821"
                    StardogInternalURL := "http://" ++ im1.StardogInternalContact ++ ":5821"
                    VolumeDescription := none
                    InstanceDescription := instRes.toOption })) := by
  constructor
  · intro volRes hI hV
    unfold awsDeploymentDescription.FullStatus
    simp only [hV]
    rw [getInstanceValues_missing env (NewEc2Instance dd) w hI]
    rfl
  · intro e im1 instRes hV hG
    unfold awsDeploymentDescription.FullStatus
    simp only [hV, hG]
    rfl

/-- C7, amended, at the configured state (both missing) and at a state whose
instance is up while the volumes status query fails. -/
theorem C7_missing_subresources_witness :
    demoDD.FullStatus stubEnv configured =
      .ret (.ok { SSHHost := ""
                  StardogURL := "http://:5821"
                  StardogInternalURL := "http://:5821"
                  VolumeDescription := none
                  InstanceDescription := none }) ∧
    demoDD.FullStatus (outputEnv statusDoc) clusterUp =
      .ret (.ok { SSHHost := "b.example"
                  StardogURL := "http://s.example:5821"
                  StardogInternalURL := "http://si.example:5821"
                  VolumeDescription := none
                  InstanceDescription := some { ZkNodesContact := ["z1", "z2", "z3"] } }) :=
  ⟨(C7_missing_subresources stubEnv demoDD configured).1 (.error "exit status 1") (by decide) rfl,
   (C7_missing_subresources (outputEnv statusDoc) demoDD clusterUp).2
      "Invalid volume results in terraform output" _ _ rfl rfl⟩

/-- C8, on the code: on the empty output document, which lacks every expected
key, `getInstanceValues` panics instead of returning an error; on a document
whose `volumes` value is a string, `getStatusInformation` panics as well; only
a missing `volumes` key is rejected with an error. -/
theorem C8_parsers_panic :
    getInstanceValues (outputEnv []) (NewEc2Instance demoDD) clusterUp =
      .panic "interface conversion: interface \x7b\x7d is not string" ∧
    (NewAwsEbsVolumeManager demoDD).getStatusInformation (outputEnv badVolumesDoc) =
      .panic "interface conversion: interface \x7b\x7d is not []interface \x7b\x7d" ∧
    (NewAwsEbsVolumeManager demoDD).getStatusInformation (outputEnv []) =
      .ret (.error "Invalid volume results in terraform output") :=
  ⟨rfl, rfl, rfl⟩

/-! ## Variables files -/

/-- Decoding a field from an encoding that starts with that field. -/
theorem jsonField_omitempty_same (k v : String) (rest : JsonObj) :
    jsonField (omitempty k v ++ rest) k = if v = "" then jsonField rest k else v := by
  unfold omitempty
  by_cases h : v = ""
  · simp [h]
  · simp [h, jsonField, List.lookup]

/-- Decoding a field from an encoding that starts with another field. -/
theorem jsonField_omitempty_other (k k2 v : String) (rest : JsonObj) (hk : (k == k2) = false) :
    jsonField (omitempty k2 v ++ rest) k = jsonField rest k := by
  unfold omitempty
  by_cases h : v = ""
  · simp [h]
  · simp [h, jsonField, List.lookup, hk]

/-- Decoding a field from an encoding that consists of that field. -/
theorem jsonField_omitempty_last (k v : String) : jsonField (omitempty k v) k = v := by
  have h := jsonField_omitempty_same k v []
  rw [List.append_nil] at h
  rw [h]
  by_cases hv : v = ""
  · simp [hv, jsonField]
  · simp [hv]

/-- Decoding a field from an encoding that consists of another field. -/
theorem jsonField_omitempty_last_other (k k2 v : String) (hk : (k == k2) = false) :
    jsonField (omitempty k2 v) k = "" := by
  have h := jsonField_omitempty_other k k2 v [] hk
  rw [List.append_nil] at h
  rw [h]
  rfl

theorem ite_empty_self (v : String) : (if v = "" then "" else v) = v := by
  by_cases hv : v = "" <;> simp [hv]

/-- Reading a volumes variables file back gives the persisted fields that were
written; the volume directory is not persisted. -/
theorem AwsEbsVolumes.unmarshal_marshal (v : AwsEbsVolumes) :
    AwsEbsVolumes.unmarshal v.marshal = { v with VolumeDir := "" } := by
  unfold AwsEbsVolumes.unmarshal AwsEbsVolumes.marshal
  simp only [List.append_assoc]
  congr
  all_goals
    simp (disch := decide) only [jsonField_omitempty_other, jsonField_omitempty_same,
      jsonField_omitempty_last, jsonField_omitempty_last_other, ite_empty_self]


/-- Method `CreateSet` in a staged directory that still holds `builder.tf`, with
terraform found and every run succeeding: the variables file is written, the
builder template removed and `apply` run twice. -/
theorem CreateSet_success (env : Env) (v : AwsEbsVolumes) (p : String) (s n : Int) (w : World)
    (tp : String) (hT : env.lookPath "terraform" = some tp)
    (hS : w.fs.staged = true) (hB : w.fs.builderTf = true)
    (hR : ∀ h c, env.run h c = true) :
    v.CreateSet env p s n w =
      (none,
       { fs := { w.fs with
                 builderTf := false
                 volumesConfig := some ({ v with ClusterSize := sprintfD n
                                                 SizeOfEachVolume := sprintfD s
                                                 LicensePath := p }).marshal }
         calls := w.calls ++
           [{ Path := tp
              Args := [tp, "apply", "-var-file", pathJoin [v.VolumeDir, "config.json"]]
              Dir := v.VolumeDir },
            { Path := tp
              Args := [tp, "apply", "-var-file", pathJoin [v.VolumeDir, "config.json"]]
              Dir := v.VolumeDir }] }) := by
  unfold AwsEbsVolumes.CreateSet
  simp [hT, WriteJSON, hS, RunCommand, hR, osRemove, FS.read, hB]

/-- C9: for every coordinator size and mask, `CreateInstance` called when the
volumes variables file is absent returns an error, does not invoke the engine
and leaves the files unchanged; in particular `InstanceExists()` is what it
was, so still false if it was false. -/
theorem C9_create_instance_needs_volumes (env : Env) (dd : awsDeploymentDescription)
    (zookeeperSize : Int) (mask : String) (w : World) (hV : dd.VolumeExists w = false) :
    (dd.CreateInstance env zookeeperSize mask w).1 ≠ none ∧
    (dd.CreateInstance env zookeeperSize mask w).2.calls = w.calls ∧
    (dd.CreateInstance env zookeeperSize mask w).2.fs = w.fs ∧
    (dd.InstanceExists w = false →
      dd.InstanceExists (dd.CreateInstance env zookeeperSize mask w).2 = false) := by
  have hv : w.fs.volumesConfig = none := by
    rw [VolumeExists_iff] at hV
    simpa using hV
  have h : dd.CreateInstance env zookeeperSize mask w =
      (some "open: no such file or directory", w) := by
    unfold awsDeploymentDescription.CreateInstance AwsEc2Instance.CreateInstance LoadEbsVolume
      LoadJSON FS.read
    simp [hv]
  rw [h]
  exact ⟨by simp, rfl, rfl, fun hi => hi⟩

/-- C9 at the configured state, with the engine ready to succeed. -/
theorem C9_create_instance_needs_volumes_witness :
    demoDD.VolumeExists configured = false ∧
    (demoDD.CreateInstance stubEnv 3 "0.0.0.0/0" configured).1 ≠ none ∧
    (demoDD.CreateInstance stubEnv 3 "0.0.0.0/0" configured).2.calls = [] ∧
    demoDD.InstanceExists (demoDD.CreateInstance stubEnv 3 "0.0.0.0/0" configured).2 = false :=
  ⟨by decide,
   (C9_create_instance_needs_volumes stubEnv demoDD 3 "0.0.0.0/0" configured (by decide)).1,
   (C9_create_instance_needs_volumes stubEnv demoDD 3 "0.0.0.0/0" configured (by decide)).2.1,
   (C9_create_instance_needs_volumes stubEnv demoDD 3 "0.0.0.0/0" configured (by decide)).2.2.2
      (by decide)⟩

/-- C10: for every license path `p` and all integers `size` and `n`,
`CreateVolumeSet(p, size, n)` on a configured deployment, with terraform found
and every run succeeding, returns nil; afterwards the volumes variables file
decodes to `cluster_size` the decimal string of `n`, `storage_size` the decimal
string of `size` and `stardog_license` equal to `p`, all of them strings, and
`LoadEbsVolume` reads these back; `VolumeExists()` is true and
`InstanceExists()` is false. -/
theorem C10_create_volume_set (env : Env) (dd : awsDeploymentDescription) (p : String)
    (size n : Int) (tp : String) (hT : env.lookPath "terraform" = some tp)
    (hR : ∀ h c, env.run h c = true) :
    (dd.CreateVolumeSet env p size n configured).1 = none ∧
    (∃ o : JsonObj, (dd.CreateVolumeSet env p size n configured).2.fs.volumesConfig = some o ∧
      jsonField o "cluster_size" = sprintfD n ∧
      jsonField o "storage_size" = sprintfD size ∧
      jsonField o "stardog_license" = p) ∧
    (∃ v : AwsEbsVolumes, LoadEbsVolume (dd.CreateVolumeSet env p size n configured).2 = .ok v ∧
      v.ClusterSize = sprintfD n ∧ v.SizeOfEachVolume = sprintfD size ∧ v.LicensePath = p) ∧
    dd.VolumeExists (dd.CreateVolumeSet env p size n configured).2 = true ∧
    dd.InstanceExists (dd.CreateVolumeSet env p size n configured).2 = false := by
  have h := CreateSet_success env (NewAwsEbsVolumeManager dd) p size n configured tp hT rfl rfl hR
  unfold awsDeploymentDescription.CreateVolumeSet
  rw [h]
  have hrt := AwsEbsVolumes.unmarshal_marshal
    { NewAwsEbsVolumeManager dd with ClusterSize := sprintfD n
                                     SizeOfEachVolume := sprintfD size
                                     LicensePath := p }
  refine ⟨rfl, ⟨_, rfl, ?_, ?_, ?_⟩, ⟨_, rfl, ?_, ?_, ?_⟩, rfl, rfl⟩
  · exact congrArg AwsEbsVolumes.ClusterSize hrt
  · exact congrArg AwsEbsVolumes.SizeOfEachVolume hrt
  · exact congrArg AwsEbsVolumes.LicensePath hrt
  · exact congrArg AwsEbsVolumes.ClusterSize hrt
  · exact congrArg AwsEbsVolumes.SizeOfEachVolume hrt
  · exact congrArg AwsEbsVolumes.LicensePath hrt

/-- C10 at the fresh-create scenario: the file holds `"3"`, `"10"` and
`"/tmp/lic"`. -/
theorem C10_create_volume_set_witness :
    (demoDD.CreateVolumeSet stubEnv "/tmp/lic" 10 3 configured).1 = none ∧
    (∃ o : JsonObj,
      (demoDD.CreateVolumeSet stubEnv "/tmp/lic" 10 3 configured).2.fs.volumesConfig = some o ∧
      jsonField o "cluster_size" = "3" ∧
      jsonField o "storage_size" = "10" ∧
      jsonField o "stardog_license" = "/tmp/lic") ∧
    demoDD.VolumeExists (demoDD.CreateVolumeSet stubEnv "/tmp/lic" 10 3 configured).2 = true ∧
    demoDD.InstanceExists (demoDD.CreateVolumeSet stubEnv "/tmp/lic" 10 3 configured).2 = false :=
  ⟨(C10_create_volume_set stubEnv demoDD "/tmp/lic" 10 3 "/usr/bin/terraform" rfl
      (fun _ _ => rfl)).1,
   (C10_create_volume_set stubEnv demoDD "/tmp/lic" 10 3 "/usr/bin/terraform" rfl
      (fun _ _ => rfl)).2.1,
   (C10_create_volume_set stubEnv demoDD "/tmp/lic" 10 3 "/usr/bin/terraform" rfl
      (fun _ _ => rfl)).2.2.2.1,
   (C10_create_volume_set stubEnv demoDD "/tmp/lic" 10 3 "/usr/bin/terraform" rfl
      (fun _ _ => rfl)).2.2.2.2⟩

/-! ## Creating the volume set again, deleting it -/

/-- C11, on the code: after a first `CreateVolumeSet` that returns nil, a second
call with the same arguments and the engine still succeeding writes the same
variables file and runs `apply` once more, then returns the error of
`os.Remove` on the builder template that the first call removed. -/
theorem C11_second_create_fails :
    (demoDD.CreateVolumeSet stubEnv "/tmp/lic" 10 3 configured).1 = none ∧
    (demoDD.CreateVolumeSet stubEnv "/tmp/lic" 10 3
        (demoDD.CreateVolumeSet stubEnv "/tmp/lic" 10 3 configured).2).1 =
      some "remove: no such file or directory" ∧
    (demoDD.CreateVolumeSet stubEnv "/tmp/lic" 10 3
        (demoDD.CreateVolumeSet stubEnv "/tmp/lic" 10 3 configured).2).2.fs.volumesConfig =
      (demoDD.CreateVolumeSet stubEnv "/tmp/lic" 10 3 configured).2.fs.volumesConfig ∧
    (demoDD.CreateVolumeSet stubEnv "/tmp/lic" 10 3
        (demoDD.CreateVolumeSet stubEnv "/tmp/lic" 10 3 configured).2).2.calls.length = 3 := by
  decide

/-- Method `DeleteSet` with the variables file present and terraform found:
after a successful destroy the file is removed and nil returned, after a failed
destroy the error is returned and the file is left in place. -/
theorem DeleteSet_present (env : Env) (v : AwsEbsVolumes) (w : World) (tp : String)
    (o : JsonObj) (hT : env.lookPath "terraform" = some tp)
    (hV : w.fs.volumesConfig = some o) :
    (env.run w.calls
        { Path := tp
          Args := [tp, "destroy", "-force", "-var-file", pathJoin [v.VolumeDir, "config.json"]]
          Dir := v.VolumeDir } = true →
      (v.DeleteSet env w).1 = none ∧ (v.DeleteSet env w).2.fs.volumesConfig = none) ∧
    (env.run w.calls
        { Path := tp
          Args := [tp, "destroy", "-force", "-var-file", pathJoin [v.VolumeDir, "config.json"]]
          Dir := v.VolumeDir } = false →
      (v.DeleteSet env w).1 = some "exit status 1" ∧
      (v.DeleteSet env w).2.fs.volumesConfig = some o) := by
  constructor
  · intro h
    unfold AwsEbsVolumes.DeleteSet
    simp [hT, RunCommand, h, osRemove, FS.read, hV]
  · intro h
    unfold AwsEbsVolumes.DeleteSet
    simp [hT, RunCommand, h, hV]

/-- C12, on the code: with the volumes variables file absent and terraform
found, `DeleteVolumeSet` runs `terraform destroy -force -var-file` on the
missing file and only then returns the error of `os.Remove`; `DeleteInstance`
in the same state returns its error without running anything. -/
theorem C12_delete_runs_engine_first :
    demoDD.VolumeExists configured = false ∧
    demoDD.DeleteVolumeSet stubEnv configured =
      (some "remove: no such file or directory",
       { configured with
         calls := [{ Path := "/usr/bin/terraform"
                     Args := ["/usr/bin/terraform", "destroy", "-force", "-var-file",
                              "/tmp/r/deployments/demo/etc/terraform/volumes/config.json"]
                     Dir := "/tmp/r/deployments/demo/etc/terraform/volumes" }] }) ∧
    demoDD.DeleteInstance stubEnv configured =
      (some "There is no configured instance", configured) := by
  decide

/-! ## Construction of a deployment -/

/-- C13, on the code: with base image and keypair `kp` given, the region empty
and the resolver answering `eu-west-1` to the `Region` prompt, the description
that is built has the empty region and the keypair name `eu-west-1`. -/
theorem C13_region_answer_in_keypair :
    demoPlugin.AmiID = "ami-abc" ∧ demoPlugin.AwsKeyName = "kp" ∧ demoPlugin.Region = "" ∧
    (scriptedHost "eu-west-1").askUser "Region" "us-west-1" = ("eu-west-1", none) ∧
    (newAwsDeploymentDescription (scriptedHost "eu-west-1") demoBase demoPlugin absent).toOption.map
        (fun r => (r.dd.Region, r.dd.AwsKeyName)) = some ("", "eu-west-1") := by
  decide

/-! ## The builder template -/

/-- C14: in `CreateSet`, with terraform found, the variables file written and
`builder.tf` in place, the builder template is removed only after the first
`apply` has succeeded. If the first `apply` fails, `CreateSet` returns that
error, `builder.tf` is still present and the engine has been invoked exactly
once. If it succeeds, `builder.tf` is removed, `apply` is invoked a second time
with the same argv and working directory, and `CreateSet` returns nil iff that
second `apply` succeeds. -/
theorem C14_builder_removed_after_first_apply (env : Env) (v : AwsEbsVolumes) (p : String)
    (s n : Int) (w : World) (tp : String)
    (hT : env.lookPath "terraform" = some tp)
    (hS : w.fs.staged = true) (hB : w.fs.builderTf = true) :
    (env.run w.calls
        { Path := tp
          Args := [tp, "apply", "-var-file", pathJoin [v.VolumeDir, "config.json"]]
          Dir := v.VolumeDir } = false →
      (v.CreateSet env p s n w).1 = some "exit status 1" ∧
      (v.CreateSet env p s n w).2.fs.builderTf = true ∧
      (v.CreateSet env p s n w).2.calls = w.calls ++
        [{ Path := tp
           Args := [tp, "apply", "-var-file", pathJoin [v.VolumeDir, "config.json"]]
           Dir := v.VolumeDir }]) ∧
    (env.run w.calls
        { Path := tp
          Args := [tp, "apply", "-var-file", pathJoin [v.VolumeDir, "config.json"]]
          Dir := v.VolumeDir } = true →
      (v.CreateSet env p s n w).2.fs.builderTf = false ∧
      (v.CreateSet env p s n w).2.calls = w.calls ++
        [{ Path := tp
           Args := [tp, "apply", "-var-file", pathJoin [v.VolumeDir, "config.json"]]
           Dir := v.VolumeDir },
         { Path := tp
           Args := [tp, "apply", "-var-file", pathJoin [v.VolumeDir, "config.json"]]
           Dir := v.VolumeDir }] ∧
      ((v.CreateSet env p s n w).1 = none ↔
        env.run (w.calls ++
          [{ Path := tp
             Args := [tp, "apply", "-var-file", pathJoin [v.VolumeDir, "config.json"]]
             Dir := v.VolumeDir }])
          { Path := tp
            Args := [tp, "apply", "-var-file", pathJoin [v.VolumeDir, "config.json"]]
            Dir := v.VolumeDir } = true)) := by
  constructor
  · intro h1
    unfold AwsEbsVolumes.CreateSet
    simp [hT, WriteJSON, hS, RunCommand, h1, hB]
  · intro h1
    unfold AwsEbsVolumes.CreateSet
    simp only [hT, WriteJSON, hS, RunCommand, h1, osRemove, FS.read, hB, if_true]
    cases h2 : env.run (w.calls ++
          [{ Path := tp
             Args := [tp, "apply", "-var-file", pathJoin [v.VolumeDir, "config.json"]]
             Dir := v.VolumeDir }])
          { Path := tp
            Args := [tp, "apply", "-var-file", pathJoin [v.VolumeDir, "config.json"]]
            Dir := v.VolumeDir } <;> simp


/-- C14 on a configured deployment: a failing first `apply`, and a first
`apply` that succeeds followed by a second that fails. -/
theorem C14_builder_removed_after_first_apply_witness :
    ((demoDD.CreateVolumeSet (scriptedRunEnv [false]) "/tmp/lic" 10 3 configured).1 =
        some "exit status 1" ∧
      (demoDD.CreateVolumeSet (scriptedRunEnv [false]) "/tmp/lic" 10 3 configured).2.fs.builderTf
        = true ∧
      (demoDD.CreateVolumeSet (scriptedRunEnv [false]) "/tmp/lic" 10 3 configured).2.calls.length
        = 1) ∧
    ((demoDD.CreateVolumeSet (scriptedRunEnv [true, false]) "/tmp/lic" 10 3
        configured).2.fs.builderTf = false ∧
      (demoDD.CreateVolumeSet (scriptedRunEnv [true, false]) "/tmp/lic" 10 3
        configured).2.calls.length = 2 ∧
      (demoDD.CreateVolumeSet (scriptedRunEnv [true, false]) "/tmp/lic" 10 3 configured).1 ≠
        none) :=
  ⟨⟨((C14_builder_removed_after_first_apply (scriptedRunEnv [false])
        (NewAwsEbsVolumeManager demoDD) "/tmp/lic" 10 3 configured "/usr/bin/terraform"
        rfl rfl rfl).1 rfl).1,
    ((C14_builder_removed_after_first_apply (scriptedRunEnv [false])
        (NewAwsEbsVolumeManager demoDD) "/tmp/lic" 10 3 configured "/usr/bin/terraform"
        rfl rfl rfl).1 rfl).2.1,
    by decide⟩,
   ⟨((C14_builder_removed_after_first_apply (scriptedRunEnv [true, false])
        (NewAwsEbsVolumeManager demoDD) "/tmp/lic" 10 3 configured "/usr/bin/terraform"
        rfl rfl rfl).2 rfl).1,
    by decide,
    fun h => absurd
      (((C14_builder_removed_after_first_apply (scriptedRunEnv [true, false])
        (NewAwsEbsVolumeManager demoDD) "/tmp/lic" 10 3 configured "/usr/bin/terraform"
        rfl rfl rfl).2 rfl).2.2.1 h) (by decide)⟩⟩

/-! ## The line scanner -/

/-- Passing over the rest of a separator. -/
theorem splitScan_skip (sep : List Char) (pre rest cur : List Char) :
    splitScan sep (pre ++ rest) pre.length cur = splitScan sep rest 0 cur := by
  induction pre with
  | nil => rfl
  | cons c cs ih => simpa [splitScan] using ih

/-- Characters that hold no separator make one piece. -/
theorem splitScan_none (sep : List Char) (s : List Char) :
    ∀ cur : List Char, containsScan sep s = false →
      splitScan sep s 0 cur = [cur.reverse ++ s] := by
  induction s with
  | nil => intro cur _; simp [splitScan]
  | cons c cs ih =>
    intro cur h
    simp only [containsScan, Bool.or_eq_false_iff] at h
    simp only [splitScan, h.1, Bool.false_eq_true, if_false]
    rw [ih (c :: cur) h.2]
    simp

/-- Characters none of which is the first of the separator are read into the
current piece. -/
theorem splitScan_key (s0 : Char) (sepTail key rest : List Char)
    (hkey : ∀ c ∈ key, (s0 == c) = false) :
    ∀ cur : List Char,
      splitScan (s0 :: sepTail) (key ++ rest) 0 cur =
        splitScan (s0 :: sepTail) rest 0 (key.reverse ++ cur) := by
  induction key with
  | nil => intro cur; rfl
  | cons c cs ih =>
    intro cur
    have hc : (s0 == c) = false := hkey c (List.mem_cons_self c cs)
    have hcs : ∀ d ∈ cs, (s0 == d) = false := fun d hd => hkey d (List.mem_cons_of_mem c hd)
    have hstep : splitScan (s0 :: sepTail) (c :: cs ++ rest) 0 cur =
        splitScan (s0 :: sepTail) (cs ++ rest) 0 (c :: cur) := by
      simp [splitScan, List.isPrefixOf, hc]
    rw [hstep, ih hcs (c :: cur)]
    simp

/-- The split of the line `load_balancer_ip = v` when `v` holds no separator. -/
theorem Split_load_balancer_ip (v : String) (hv : Contains v " = " = false) :
    Split ("load_balancer_ip = " ++ v) " = " = ["load_balancer_ip", v] := by
  have hsep : " = ".toList = [' ', '=', ' '] := rfl
  have hline : ("load_balancer_ip = " ++ v).toList =
      ['l', 'o', 'a', 'd', '_', 'b', 'a', 'l', 'a', 'n', 'c', 'e', 'r', '_', 'i', 'p'] ++
        ([' ', '=', ' '] ++ v.toList) := by
    simp [String.toList, String.data_append]
  unfold Contains at hv
  rw [hsep] at hv
  unfold Split
  rw [if_neg (by decide), hsep, hline]
  rw [splitScan_key ' ' ['=', ' '] _ _ (by decide) []]
  have hstep : splitScan [' ', '=', ' '] ([' ', '=', ' '] ++ v.toList) 0
      (['l', 'o', 'a', 'd', '_', 'b', 'a', 'l', 'a', 'n', 'c', 'e', 'r', '_', 'i', 'p'].reverse
        ++ []) =
      ['l', 'o', 'a', 'd', '_', 'b', 'a', 'l', 'a', 'n', 'c', 'e', 'r', '_', 'i', 'p'] ::
        splitScan [' ', '=', ' '] (['=', ' '] ++ v.toList) ['=', ' '].length [] := by
    simp [splitScan, List.isPrefixOf]
  rw [hstep, splitScan_skip, splitScan_none _ _ [] hv]
  simp only [List.reverse_nil, List.nil_append, List.map_cons, List.map_nil]
  rfl


/-- The line `load_balancer_ip = v` starts with the output key. -/
theorem HasPrefix_load_balancer_ip (v : String) :
    HasPrefix ("load_balancer_ip = " ++ v) "load_balancer_ip" = true := by
  have hline : ("load_balancer_ip = " ++ v).toList =
      ['l', 'o', 'a', 'd', '_', 'b', 'a', 'l', 'a', 'n', 'c', 'e', 'r', '_', 'i', 'p'] ++
        ([' ', '=', ' '] ++ v.toList) := by
    simp [String.toList, String.data_append]
  have hkey : "load_balancer_ip".toList =
      ['l', 'o', 'a', 'd', '_', 'b', 'a', 'l', 'a', 'n', 'c', 'e', 'r', '_', 'i', 'p'] := rfl
  unfold HasPrefix
  rw [hline, hkey]
  simp [List.isPrefixOf]

/-- C15, as stated, fails: for `v = "a = b"` the line `load_balancer_ip = a = b`
splits into three parts and the value returned is `a`, not `v`. -/
theorem C15_value_cut_at_separator :
    volumeLineScanner ("load_balancer_ip = " ++ "a = b") =
      .ret (some { Key := "load_balancer_ip", Value := "a" }) ∧
    Split ("load_balancer_ip = " ++ "a = b") " = " = ["load_balancer_ip", "a", "b"] := by
  decide

/-- C15, amended: for every string `v` that does not contain ` = `,
`volumeLineScanner` applied to the line `"load_balancer_ip = " ++ v` returns a
`ScanResult` with `Key = "load_balancer_ip"` and `Value = v`; for every line
that does not start with `load_balancer_ip` it returns nil. -/
theorem C15_scanner_captures (v line : String) :
    (Contains v " = " = false →
      volumeLineScanner ("load_balancer_ip = " ++ v) =
        .ret (some { Key := "load_balancer_ip", Value := v })) ∧
    (HasPrefix line "load_balancer_ip" = false → volumeLineScanner line = .ret none) := by
  constructor
  · intro hv
    simp only [volumeLineScanner, volumeLineScannerLoop, HasPrefix_load_balancer_ip, if_true,
      Split_load_balancer_ip v hv]
    rfl
  · intro hl
    simp only [volumeLineScanner, volumeLineScannerLoop, hl, Bool.false_eq_true, if_false]

/-- C15, amended, at an address and at a line of another output. -/
theorem C15_scanner_captures_witness :
    volumeLineScanner "load_balancer_ip = 10.0.0.7" =
      .ret (some { Key := "load_balancer_ip", Value := "10.0.0.7" }) ∧
    volumeLineScanner "bastion_contact = b.example" = .ret none :=
  ⟨(C15_scanner_captures "10.0.0.7" "bastion_contact = b.example").1 (by decide),
   (C15_scanner_captures "10.0.0.7" "bastion_contact = b.example").2 (by decide)⟩

/-- C16, on the code: on a line that starts with `load_balancer_ip` and holds
no separator the split has one element and the index expression `la[1]`
panics. -/
theorem C16_scanner_panics :
    volumeLineScanner "load_balancer_ip" = .panic "runtime error: index out of range" ∧
    volumeLineScanner "load_balancer_ip: 10.0.0.1" =
      .panic "runtime error: index out of range" ∧
    Split "load_balancer_ip" " = " = ["load_balancer_ip"] := by
  decide

end Graviton
